import Mathlib

/-!
Verification development for the PoseEvaluator repository.

The source (src/services/exerciseLogic.ts and the stateless implementation in
src/unnamed/part_000) is shallowly embedded over the real numbers.  JavaScript
numbers are modelled as `ℝ`; the `NaN` sentinel that the code uses for
"absent visibility", "knee angle unknown" and "EMA accumulator unset" is
modelled as `Option ℝ` (`none` = `NaN`), and comparisons follow the JavaScript
semantics where every comparison with `NaN` is false.  Mutable evaluator
classes become state records plus update functions; `Date.now()` becomes an
explicit `now : ℝ` argument.
-/

noncomputable section

open Classical

namespace PoseEval

/-- A pose landmark as produced by the upstream model (src/types.ts):
normalized coordinates plus an optional visibility confidence. -/
structure Landmark where
  x : ℝ
  y : ℝ
  z : ℝ
  visibility : Option ℝ

/-- Internal pixel-space point (exerciseLogic.ts lines 5-10); `vis` keeps the
`NaN`-sentinel semantics of `landmark.visibility ?? NaN` as an `Option`. -/
structure Point where
  x : ℝ
  y : ℝ
  z : ℝ
  vis : Option ℝ

/-- Math.hypot for two arguments. -/
def hypot (x y : ℝ) : ℝ := Real.sqrt (x ^ 2 + y ^ 2)

/-- calculateAngle3D (exerciseLogic.ts lines 12-26). -/
def calculateAngle3D (a b c : Point) : ℝ :=
  let bax := a.x - b.x
  let bay := a.y - b.y
  let baz := a.z - b.z
  let bcx := c.x - b.x
  let bcy := c.y - b.y
  let bcz := c.z - b.z
  let normBA := Real.sqrt (bax * bax + bay * bay + baz * baz)
  let normBC := Real.sqrt (bcx * bcx + bcy * bcy + bcz * bcz)
  let den := max 1e-9 (normBA * normBC)
  let cosv := max (-1) (min 1 ((bax * bcx + bay * bcy + baz * bcz) / den))
  Real.arccos cosv * 180 / Real.pi

/-- calculateAngle2D (exerciseLogic.ts lines 28-38). -/
def calculateAngle2D (a b c : Point) : ℝ :=
  let bax := a.x - b.x
  let bay := a.y - b.y
  let bcx := c.x - b.x
  let bcy := c.y - b.y
  let den := max 1e-9 (hypot bax bay * hypot bcx bcy)
  let cosv := max (-1) (min 1 ((bax * bcx + bay * bcy) / den))
  Real.arccos cosv * 180 / Real.pi

/-- toPoint (exerciseLogic.ts lines 40-47). -/
def toPoint (lm : Landmark) (imageW imageH : ℝ) : Point :=
  { x := lm.x * imageW, y := lm.y * imageH, z := lm.z, vis := lm.visibility }

/-- isVisible (exerciseLogic.ts lines 49-51): absent visibility (`NaN`) is
treated as visible, otherwise the value must be at least the threshold. -/
def isVisible (p : Point) (minVisibility : ℝ) : Prop :=
  match p.vis with
  | none => True
  | some v => minVisibility ≤ v

/-- Landmark indices. Modelled from the spec: `src/services/geometry.ts`
(exporting `POSE_LANDMARKS` and `calculateAngle`) is not part of the given
sources; the spec fixes "a fixed standard topology" including left/right
shoulder, elbow, wrist, hip, knee, ankle, ear, which is the standard
MediaPipe pose topology (the source itself uses raw indices 7/8 for the
ears, consistent with it). -/
def LEFT_EAR : ℕ := 7
def RIGHT_EAR : ℕ := 8
def LEFT_SHOULDER : ℕ := 11
def RIGHT_SHOULDER : ℕ := 12
def LEFT_ELBOW : ℕ := 13
def RIGHT_ELBOW : ℕ := 14
def LEFT_WRIST : ℕ := 15
def RIGHT_WRIST : ℕ := 16
def LEFT_HIP : ℕ := 23
def RIGHT_HIP : ℕ := 24
def LEFT_KNEE : ℕ := 25
def RIGHT_KNEE : ℕ := 26
def LEFT_ANKLE : ℕ := 27
def RIGHT_ANKLE : ℕ := 28

/-- Landmark lookup; every access in the source happens behind a
`landmarks.length < 33` guard, so the default is never observable there. -/
def lmAt (lms : List Landmark) (i : ℕ) : Landmark :=
  lms.getD i ⟨0, 0, 0, none⟩

/-- Converted landmark `i` of a frame, as the source's `toPoint(landmarks[i], w, h)`. -/
def pt (lms : List Landmark) (i : ℕ) (w h : ℝ) : Point :=
  toPoint (lmAt lms i) w h

/-- JavaScript-style `x ≤ t` on a possibly-NaN value: false for NaN. -/
def oLE (x : Option ℝ) (t : ℝ) : Prop := ∃ v, x = some v ∧ v ≤ t

/-- JavaScript-style `t ≤ x` on a possibly-NaN value: false for NaN. -/
def oGE (x : Option ℝ) (t : ℝ) : Prop := ∃ v, x = some v ∧ t ≤ v

/-- JavaScript-style `x < t` on a possibly-NaN value: false for NaN. -/
def oLT (x : Option ℝ) (t : ℝ) : Prop := ∃ v, x = some v ∧ v < t

/-- JavaScript-style `t < x` on a possibly-NaN value: false for NaN. -/
def oGT (x : Option ℝ) (t : ℝ) : Prop := ∃ v, x = some v ∧ t < v

/-- String `includes` (substring containment), used by the wrapper functions. -/
def strIncludes (s sub : String) : Prop := sub.data <:+: s.data

/-- PushupState (exerciseLogic.ts lines 57-61). -/
inductive PushupState where
  | UNARMED
  | UP
  | DOWN
deriving DecidableEq

/-- PushupCounter constructor parameters with their defaults
(exerciseLogic.ts lines 71-76). -/
structure PushupCfg where
  upThresh : ℝ
  downThresh : ℝ
  minVisibility : ℝ
  legExtendedThresh : ℝ

def pushupCfgD : PushupCfg :=
  { upThresh := 145, downThresh := 70, minVisibility := 0.6, legExtendedThresh := 130 }

/-- Mutable fields of PushupCounter (exerciseLogic.ts lines 64-69). -/
structure PushupCtr where
  state : PushupState
  count : ℕ
  elbowAngle : Option ℝ
  kneeAngle : Option ℝ
  formWarning : String
  legsQualified : Prop

/-- PushupCounter.reset (exerciseLogic.ts lines 78-85); also the initial state. -/
def pushupReset : PushupCtr :=
  { state := .UNARMED, count := 0, elbowAngle := none, kneeAngle := none,
    formWarning := "", legsQualified := False }

/-- side.toLowerCase().startsWith('r'): a string starts with "r" after
lower-casing exactly when its first character lower-cases to 'r'. -/
def prefersRight (side : String) : Bool :=
  match side.data.map Char.toLower with
  | [] => false
  | c :: _ => c = 'r'

/-- armOK (exerciseLogic.ts lines 107-112). -/
def pushupArmOK (cfg : PushupCfg) (lms : List Landmark) (w h : ℝ) (isRight : Bool) : Prop :=
  isVisible (pt lms (if isRight then RIGHT_SHOULDER else LEFT_SHOULDER) w h) cfg.minVisibility ∧
  isVisible (pt lms (if isRight then RIGHT_ELBOW else LEFT_ELBOW) w h) cfg.minVisibility ∧
  isVisible (pt lms (if isRight then RIGHT_WRIST else LEFT_WRIST) w h) cfg.minVisibility

/-- Arm-side selection (exerciseLogic.ts line 115). -/
def pushupUseRight (cfg : PushupCfg) (lms : List Landmark) (w h : ℝ) (side : String) : Bool :=
  let preferRight := prefersRight side
  if pushupArmOK cfg lms w h preferRight then preferRight
  else if ¬ pushupArmOK cfg lms w h (!preferRight) then preferRight
  else !preferRight

/-- The measured elbow angle of a frame (exerciseLogic.ts lines 116-118, 133). -/
def pushupElbow (cfg : PushupCfg) (lms : List Landmark) (w h : ℝ) (side : String) : ℝ :=
  let r := pushupUseRight cfg lms w h side
  calculateAngle2D
    (pt lms (if r then RIGHT_SHOULDER else LEFT_SHOULDER) w h)
    (pt lms (if r then RIGHT_ELBOW else LEFT_ELBOW) w h)
    (pt lms (if r then RIGHT_WRIST else LEFT_WRIST) w h)

/-- legOK (exerciseLogic.ts lines 121-126). -/
def pushupLegOK (cfg : PushupCfg) (lms : List Landmark) (w h : ℝ) (isRight : Bool) : Prop :=
  isVisible (pt lms (if isRight then RIGHT_HIP else LEFT_HIP) w h) cfg.minVisibility ∧
  isVisible (pt lms (if isRight then RIGHT_KNEE else LEFT_KNEE) w h) cfg.minVisibility ∧
  isVisible (pt lms (if isRight then RIGHT_ANKLE else LEFT_ANKLE) w h) cfg.minVisibility

/-- legSide selection (exerciseLogic.ts lines 128-130); `none` models `null`. -/
def pushupLegSide (cfg : PushupCfg) (lms : List Landmark) (w h : ℝ) (side : String) : Option Bool :=
  if pushupLegOK cfg lms w h true ∧ pushupLegOK cfg lms w h false then
    some (pushupUseRight cfg lms w h side)
  else if pushupLegOK cfg lms w h true then some true
  else if pushupLegOK cfg lms w h false then some false
  else none

/-- The measured knee angle of a frame (exerciseLogic.ts lines 136-143);
`none` models the `NaN` assigned when no leg side qualifies. -/
def pushupKnee (cfg : PushupCfg) (lms : List Landmark) (w h : ℝ) (side : String) : Option ℝ :=
  match pushupLegSide cfg lms w h side with
  | some r =>
      some (calculateAngle2D
        (pt lms (if r then RIGHT_HIP else LEFT_HIP) w h)
        (pt lms (if r then RIGHT_KNEE else LEFT_KNEE) w h)
        (pt lms (if r then RIGHT_ANKLE else LEFT_ANKLE) w h))
  | none => none

/-- legsVisible (exerciseLogic.ts line 145). -/
def pushupLegsVisible (cfg : PushupCfg) (lms : List Landmark) (w h : ℝ) (side : String) : Prop :=
  (pushupLegSide cfg lms w h side).isSome = true

/-- legsExtended (exerciseLogic.ts line 146). -/
def pushupLegsExtended (cfg : PushupCfg) (lms : List Landmark) (w h : ℝ) (side : String) : Prop :=
  pushupLegsVisible cfg lms w h side ∧ oGE (pushupKnee cfg lms w h side) cfg.legExtendedThresh

/-- visibilityOK of the selected arm (exerciseLogic.ts line 173). -/
def pushupArmVisible (cfg : PushupCfg) (lms : List Landmark) (w h : ℝ) (side : String) : Prop :=
  pushupArmOK cfg lms w h (pushupUseRight cfg lms w h side)

/-- Feedback priority chain (exerciseLogic.ts lines 172-189), reading the
state and qualification flag after the transition, as the source does. -/
def pushupWarning (cfg : PushupCfg) (st : PushupState) (legsQualified : Prop)
    (elbow : ℝ) (armVis legsVis legsExt : Prop) : String :=
  if ¬ armVis then "Arm not clearly visible"
  else if ¬ legsVis then "Keep legs in frame"
  else if st = .UNARMED ∧ cfg.upThresh ≤ elbow ∧ ¬ legsExt then "Straighten your legs & arms"
  else if st = .DOWN ∧ ¬ legsQualified then "Straighten your legs"
  else if st = .UP ∧ elbow < cfg.upThresh - 10 then "Extend your arms more"
  else if st ≠ .UP ∧ cfg.downThresh + 10 < elbow then "Go lower"
  else ""

/-- PushupCounter.update (exerciseLogic.ts lines 87-190). -/
def pushupUpdate (cfg : PushupCfg) (s : PushupCtr) (lms : List Landmark)
    (w h : ℝ) (side : String) : PushupCtr :=
  if lms.length < 33 then s else
  let e := pushupElbow cfg lms w h side
  let kneeOpt := pushupKnee cfg lms w h side
  let legsVis := pushupLegsVisible cfg lms w h side
  let legsExt := pushupLegsExtended cfg lms w h side
  let base := { s with elbowAngle := some e, kneeAngle := kneeOpt }
  let afterFSM :=
    match s.state with
    | .UNARMED =>
        if cfg.upThresh ≤ e ∧ legsExt then { base with state := .UP, legsQualified := False }
        else { base with legsQualified := False }
    | .UP =>
        if e ≤ cfg.downThresh then { base with state := .DOWN, legsQualified := legsExt }
        else base
    | .DOWN =>
        let q := s.legsQualified ∨ legsExt
        if cfg.upThresh ≤ e ∧ q then
          { base with state := .UP, count := s.count + 1, legsQualified := False }
        else { base with legsQualified := q }
  { afterFSM with
    formWarning := pushupWarning cfg afterFSM.state afterFSM.legsQualified e
      (pushupArmVisible cfg lms w h side) legsVis legsExt }

/-- SquatState (exerciseLogic.ts lines 207-211). -/
inductive SquatState where
  | UNARMED
  | UP
  | DOWN
deriving DecidableEq

/-- SquatMetrics (exerciseLogic.ts lines 213-220); the two angles use the
`NaN`-as-`none` model since held angles may still be unset. -/
structure SquatMetrics where
  kneeAngle : Option ℝ
  hipAngle : Option ℝ
  legsVisible : Prop
  standing : Prop
  hipBelowKnee : Prop
  kneeOverFootOK : Prop

/-- SquatCounter constructor parameters with their defaults
(exerciseLogic.ts lines 233-239). -/
structure SquatCfg where
  upThresh : ℝ
  downThresh : ℝ
  minVisibility : ℝ
  torsoLeanMax : ℝ
  smoothAlpha : ℝ

def squatCfgD : SquatCfg :=
  { upThresh := 165, downThresh := 95, minVisibility := 0.6, torsoLeanMax := 55,
    smoothAlpha := 0.35 }

/-- Mutable fields of SquatCounter (exerciseLogic.ts lines 223-231). -/
structure SquatCtr where
  state : SquatState
  count : ℕ
  kneeAngle : Option ℝ
  hipAngle : Option ℝ
  formWarning : String
  liveWarning : String
  visibilityQualified : Prop
  kneeEma : Option ℝ
  hipEma : Option ℝ

/-- SquatCounter.reset (exerciseLogic.ts lines 241-251); also the initial state. -/
def squatReset : SquatCtr :=
  { state := .UNARMED, count := 0, kneeAngle := none, hipAngle := none,
    formWarning := "", liveWarning := "", visibilityQualified := False,
    kneeEma := none, hipEma := none }

/-- SquatCounter.ema (exerciseLogic.ts lines 253-257): `alpha ≤ 0` disables
smoothing, an unset (`NaN`) accumulator bootstraps with the current value,
and a `NaN` current value poisons the result as in JavaScript arithmetic. -/
def squatEma (cfg : SquatCfg) (prev cur : Option ℝ) : Option ℝ :=
  if cfg.smoothAlpha ≤ 0 then cur
  else
    match prev with
    | none => cur
    | some p =>
        match cur with
        | none => none
        | some c => some (cfg.smoothAlpha * c + (1 - cfg.smoothAlpha) * p)

/-- legOK of SquatCounter.computeMetrics (exerciseLogic.ts lines 282-289). -/
def squatLegOK (cfg : SquatCfg) (lms : List Landmark) (w h : ℝ) (isRight : Bool) : Prop :=
  isVisible (pt lms (if isRight then RIGHT_SHOULDER else LEFT_SHOULDER) w h) cfg.minVisibility ∧
  isVisible (pt lms (if isRight then RIGHT_HIP else LEFT_HIP) w h) cfg.minVisibility ∧
  isVisible (pt lms (if isRight then RIGHT_KNEE else LEFT_KNEE) w h) cfg.minVisibility ∧
  isVisible (pt lms (if isRight then RIGHT_ANKLE else LEFT_ANKLE) w h) cfg.minVisibility

/-- Leg-side selection of SquatCounter.computeMetrics (exerciseLogic.ts line 291). -/
def squatUseRight (cfg : SquatCfg) (lms : List Landmark) (w h : ℝ) (side : String) : Bool :=
  let preferRight := prefersRight side
  if squatLegOK cfg lms w h preferRight then preferRight
  else if ¬ squatLegOK cfg lms w h (!preferRight) then preferRight
  else !preferRight

/-- SquatCounter.computeMetrics (exerciseLogic.ts lines 259-320).  On a short
frame it returns the held angles with `legsVisible`/`standing`/`hipBelowKnee`
false and `kneeOverFootOK` true; otherwise `standing` is computed from the
raw (pre-smoothing) knee angle of this frame. -/
def computeMetrics (cfg : SquatCfg) (s : SquatCtr) (lms : List Landmark)
    (w h : ℝ) (side : String) : SquatMetrics :=
  if lms.length < 33 then
    { kneeAngle := s.kneeAngle, hipAngle := s.hipAngle, legsVisible := False,
      standing := False, hipBelowKnee := False, kneeOverFootOK := True }
  else
    let r := squatUseRight cfg lms w h side
    let sh := pt lms (if r then RIGHT_SHOULDER else LEFT_SHOULDER) w h
    let hp := pt lms (if r then RIGHT_HIP else LEFT_HIP) w h
    let kn := pt lms (if r then RIGHT_KNEE else LEFT_KNEE) w h
    let an := pt lms (if r then RIGHT_ANKLE else LEFT_ANKLE) w h
    let kneeA := calculateAngle2D hp kn an
    let hipA := calculateAngle2D sh hp kn
    let legsVisible := isVisible sh cfg.minVisibility ∧ isVisible hp cfg.minVisibility ∧
      isVisible kn cfg.minVisibility ∧ isVisible an cfg.minVisibility
    let standing := cfg.upThresh ≤ kneeA
    let depthMarginPx := h * 0.01
    let hipBelowKnee := kn.y + depthMarginPx < hp.y
    let kneeAnkleDx := |kn.x - an.x|
    let kneeAnkleLen := max 1e-6 (hypot (kn.x - an.x) (kn.y - an.y))
    let kneeOverFootOK := kneeAnkleDx / kneeAnkleLen ≤ 0.45
    { kneeAngle := some kneeA, hipAngle := some hipA, legsVisible := legsVisible,
      standing := standing, hipBelowKnee := hipBelowKnee, kneeOverFootOK := kneeOverFootOK }

/-- SquatCounter.depthReached (exerciseLogic.ts lines 322-324). -/
def depthReached (cfg : SquatCfg) (m : SquatMetrics) : Prop :=
  oLE m.kneeAngle cfg.downThresh ∧ m.hipBelowKnee

/-- SquatCounter.warningFromMetrics (exerciseLogic.ts lines 326-334), with
the state read after the transition as at the call site (line 372). -/
def warningFromMetrics (cfg : SquatCfg) (st : SquatState) (m : SquatMetrics) : String :=
  if ¬ m.legsVisible then "Keep legs in frame"
  else if st ≠ .DOWN ∧ oGT m.kneeAngle (cfg.downThresh + 12) then "Go deeper"
  else if st ≠ .DOWN ∧ ¬ m.hipBelowKnee then "Drop hips below knees"
  else if st = .UP ∧ oLT m.kneeAngle (cfg.upThresh - 10) then "Stand up fully"
  else if ¬ m.kneeOverFootOK then "Align knee over foot"
  else if oLT m.hipAngle cfg.torsoLeanMax then "Keep chest up"
  else ""

/-- SquatCounter.update (exerciseLogic.ts lines 336-374).  Note that
`smoothedMetrics` overrides only the two angles; the `standing` flag keeps
the value computed from the raw knee angle in `computeMetrics`. -/
def squatUpdate (cfg : SquatCfg) (s : SquatCtr) (lms : List Landmark)
    (w h : ℝ) (side : String) : SquatCtr :=
  let m := computeMetrics cfg s lms w h side
  let kE := squatEma cfg s.kneeEma m.kneeAngle
  let hE := squatEma cfg s.hipEma m.hipAngle
  let sm : SquatMetrics := { m with kneeAngle := kE, hipAngle := hE }
  let s1 := { s with kneeEma := kE, hipEma := hE, kneeAngle := kE, hipAngle := hE }
  let s2 :=
    match s.state with
    | .UNARMED =>
        if sm.standing ∧ sm.legsVisible then { s1 with state := .UP, visibilityQualified := False }
        else { s1 with visibilityQualified := False }
    | .UP =>
        if depthReached cfg sm then
          { s1 with state := .DOWN, visibilityQualified := sm.legsVisible }
        else s1
    | .DOWN =>
        let q := s.visibilityQualified ∧ sm.legsVisible
        if sm.standing ∧ q then
          { s1 with state := .UP, count := s.count + 1, visibilityQualified := False }
        else { s1 with visibilityQualified := q }
  { s2 with formWarning := warningFromMetrics cfg s2.state sm,
            liveWarning := warningFromMetrics cfg s2.state sm }

/-- PlankState (exerciseLogic.ts lines 391-395). -/
inductive PlankState where
  | NOT_READY
  | READY
  | HOLDING
deriving DecidableEq

/-- PlankType (exerciseLogic.ts lines 397-401). -/
inductive PlankType where
  | HIGH
  | FOREARM
  | UNKNOWN
deriving DecidableEq

/-- PlankEvaluator constructor parameters with their defaults
(exerciseLogic.ts lines 437-456). -/
structure PlankCfg where
  hipOkLo : ℝ
  hipOkHi : ℝ
  hipSagMax : ℝ
  hipPikeMin : ℝ
  headOkLo : ℝ
  headOkHi : ℝ
  stackOkMaxDeg : ℝ
  underShoulderPxNorm : ℝ
  feetMaxWidth : ℝ
  feetMinWidth : ℝ
  emaAlpha : ℝ
  minVisibility : ℝ
  readySeconds : ℝ
  wHip : ℝ
  wHead : ℝ
  wStack : ℝ
  wUnder : ℝ
  wFeet : ℝ

def plankCfgD : PlankCfg :=
  { hipOkLo := 165, hipOkHi := 180, hipSagMax := 150, hipPikeMin := 190,
    headOkLo := 155, headOkHi := 200, stackOkMaxDeg := 6,
    underShoulderPxNorm := 0.25, feetMaxWidth := 1.4, feetMinWidth := 0.7,
    emaAlpha := 0.35, minVisibility := 0.5, readySeconds := 1,
    wHip := 0.35, wHead := 0.15, wStack := 0.15, wUnder := 0.2, wFeet := 0.15 }

/-- Mutable fields of PlankEvaluator (exerciseLogic.ts lines 404-435);
timestamps are reals (`Date.now()` milliseconds), `holdStartTime`'s `null`
and the `NaN`-initialized measurements are `Option`s. -/
structure PlankSt where
  state : PlankState
  plankType : PlankType
  overallScore : ℝ
  holdTime : ℝ
  bestHold : ℝ
  totalTime : ℝ
  hipScore : ℝ
  headScore : ℝ
  stackScore : ℝ
  underScore : ℝ
  feetScore : ℝ
  hipAngle : Option ℝ
  headAngle : Option ℝ
  shoulderMisalignment : Option ℝ
  hipMisalignment : Option ℝ
  underShoulderDist : Option ℝ
  feetWidthRel : Option ℝ
  formWarnings : List String
  stateStartTime : ℝ
  holdStartTime : Option ℝ
  lastUpdateTime : ℝ
  hipAngSmooth : Option ℝ
  headAngSmooth : Option ℝ
  stackShSmooth : Option ℝ
  stackHipSmooth : Option ℝ
  underSmooth : Option ℝ
  feetWSmooth : Option ℝ

/-- PlankEvaluator.reset (exerciseLogic.ts lines 458-486); also the initial
state, with `now` standing for `Date.now()` at construction/reset time. -/
def plankReset (now : ℝ) : PlankSt :=
  { state := .NOT_READY, plankType := .UNKNOWN, overallScore := 0, holdTime := 0,
    bestHold := 0, totalTime := 0, hipScore := 1, headScore := 1, stackScore := 1,
    underScore := 1, feetScore := 1, hipAngle := none, headAngle := none,
    shoulderMisalignment := none, hipMisalignment := none, underShoulderDist := none,
    feetWidthRel := none, formWarnings := [], stateStartTime := now,
    holdStartTime := none, lastUpdateTime := now, hipAngSmooth := none,
    headAngSmooth := none, stackShSmooth := none, stackHipSmooth := none,
    underSmooth := none, feetWSmooth := none }

/-- PlankEvaluator.ema (exerciseLogic.ts lines 488-491): returns the new
value if either argument is `NaN` (so a `NaN` new value poisons the
accumulator), else the exponential blend. -/
def plankEma (alpha : ℝ) (prev cur : Option ℝ) : Option ℝ :=
  match prev, cur with
  | none, _ => cur
  | some _, none => none
  | some p, some c => some (alpha * c + (1 - alpha) * p)

/-- PlankEvaluator.angle3 (exerciseLogic.ts lines 493-508): the 3D angle
re-centered by `180 - ang + 180` so that a straight line reads 180; its
range is therefore [180, 360]. -/
def plankAngle3 (a b c : Point) : ℝ :=
  let bax := a.x - b.x
  let bay := a.y - b.y
  let baz := a.z - b.z
  let bcx := c.x - b.x
  let bcy := c.y - b.y
  let bcz := c.z - b.z
  let normBA := Real.sqrt (bax * bax + bay * bay + baz * baz)
  let normBC := Real.sqrt (bcx * bcx + bcy * bcy + bcz * bcz)
  let den := max 1e-9 (normBA * normBC)
  let cosv := max (-1) (min 1 ((bax * bcx + bay * bcy + baz * bcz) / den))
  let ang := Real.arccos cosv * 180 / Real.pi
  180 - ang + 180

/-- PlankEvaluator.verticalMisalignDeg (exerciseLogic.ts lines 510-522);
`none` models the `NaN` returns for degenerate segments. -/
def verticalMisalignDeg (l r : Point) : Option ℝ :=
  let dx := r.x - l.x
  let dy := r.y - l.y
  let dz := r.z - l.z
  let norm := Real.sqrt (dx * dx + dy * dy + dz * dz)
  if norm < 1e-6 then none
  else
    let horizNorm := hypot dx dz
    if horizNorm < 1e-6 then none
    else some (Real.arccos (max (-1) (min 1 (horizNorm / norm))) * 180 / Real.pi)

/-- Inner elbowAngle helper of classifyPlank (exerciseLogic.ts lines 535-549);
`none` models its `NaN` return for near-zero vectors. -/
def classifyElbowAngle (sh el wr : Point) : Option ℝ :=
  let bax := sh.x - el.x
  let bay := sh.y - el.y
  let baz := sh.z - el.z
  let bcx := wr.x - el.x
  let bcy := wr.y - el.y
  let bcz := wr.z - el.z
  let normBA := Real.sqrt (bax * bax + bay * bay + baz * baz)
  let normBC := Real.sqrt (bcx * bcx + bcy * bcy + bcz * bcz)
  if normBA < 1e-6 ∨ normBC < 1e-6 then none
  else
    some (Real.arccos (max (-1) (min 1
      ((bax * bcx + bay * bcy + baz * bcz) / (normBA * normBC)))) * 180 / Real.pi)

/-- PlankEvaluator.classifyPlank (exerciseLogic.ts lines 524-557). -/
def classifyPlank (cfg : PlankCfg) (lsh rsh lel rel lwr rwr : Point) : PlankType :=
  if ¬ (isVisible lsh cfg.minVisibility ∧ isVisible rsh cfg.minVisibility ∧
        isVisible lel cfg.minVisibility ∧ isVisible rel cfg.minVisibility ∧
        isVisible lwr cfg.minVisibility ∧ isVisible rwr cfg.minVisibility) then .UNKNOWN
  else
    let avgDiff := ((lel.y - lwr.y) + (rel.y - rwr.y)) / 2
    if avgDiff < -0.02 then .HIGH
    else if 0.02 < avgDiff then .FOREARM
    else
      let angL := classifyElbowAngle lsh lel lwr
      let angR := classifyElbowAngle rsh rel rwr
      let ang : Option ℝ :=
        match angL, angR with
        | some a, some b => some ((a + b) / 2)
        | some a, none => some a
        | none, some b => some b
        | none, none => none
      match ang with
      | none => .UNKNOWN
      | some a => if 150 < a then .HIGH else .FOREARM

/-- Midpoint of two points (the avg closure, exerciseLogic.ts lines 594-599);
the averaged `vis` field is never consulted afterwards, and averaging a
`NaN` visibility would itself be `NaN`, modelled by propagating `none`. -/
def avgP (a b : Point) : Point :=
  { x := (a.x + b.x) / 2, y := (a.y + b.y) / 2, z := (a.z + b.z) / 2,
    vis := match a.vis, b.vis with
           | some u, some v => some ((u + v) / 2)
           | _, _ => none }

/-- horizDist closure (exerciseLogic.ts lines 621-625). -/
def horizDist (base sh : Point) : ℝ := hypot (base.x - sh.x) (base.z - sh.z)

/-- criticalPointsVisible (exerciseLogic.ts lines 577-580). -/
def plankCritVis (cfg : PlankCfg) (lms : List Landmark) (w h : ℝ) : Prop :=
  (isVisible (pt lms LEFT_SHOULDER w h) cfg.minVisibility ∧
   isVisible (pt lms LEFT_KNEE w h) cfg.minVisibility) ∨
  (isVisible (pt lms RIGHT_SHOULDER w h) cfg.minVisibility ∧
   isVisible (pt lms RIGHT_KNEE w h) cfg.minVisibility)

/-- stableCoreVisible (exerciseLogic.ts lines 721-723). -/
def plankCoreVis (cfg : PlankCfg) (lms : List Landmark) (w h : ℝ) : Prop :=
  isVisible (pt lms LEFT_SHOULDER w h) cfg.minVisibility ∧
  isVisible (pt lms RIGHT_SHOULDER w h) cfg.minVisibility ∧
  isVisible (pt lms LEFT_HIP w h) cfg.minVisibility ∧
  isVisible (pt lms RIGHT_HIP w h) cfg.minVisibility ∧
  isVisible (pt lms LEFT_ANKLE w h) cfg.minVisibility ∧
  isVisible (pt lms RIGHT_ANKLE w h) cfg.minVisibility

/-- The raw per-frame plank signals (exerciseLogic.ts lines 601-631). -/
structure PlankRaw where
  hipAngle : ℝ
  headAngle : ℝ
  shMis : Option ℝ
  hipMis : Option ℝ
  underDist : ℝ
  feetW : ℝ
  scale : ℝ
  ptype : PlankType

/-- Computation of the raw plank signals (exerciseLogic.ts lines 562-631). -/
def plankRaw (cfg : PlankCfg) (lms : List Landmark) (w h : ℝ) : PlankRaw :=
  let lsh := pt lms LEFT_SHOULDER w h
  let rsh := pt lms RIGHT_SHOULDER w h
  let lel := pt lms LEFT_ELBOW w h
  let rel := pt lms RIGHT_ELBOW w h
  let lwr := pt lms LEFT_WRIST w h
  let rwr := pt lms RIGHT_WRIST w h
  let lhip := pt lms LEFT_HIP w h
  let rhip := pt lms RIGHT_HIP w h
  let lank := pt lms LEFT_ANKLE w h
  let rank := pt lms RIGHT_ANKLE w h
  let lear := pt lms LEFT_EAR w h
  let rear := pt lms RIGHT_EAR w h
  let sho := avgP lsh rsh
  let hip := avgP lhip rhip
  let ank := avgP lank rank
  let ear := avgP lear rear
  let scale := hypot (sho.x - hip.x) (sho.y - hip.y)
  let ptype := classifyPlank cfg lsh rsh lel rel lwr rwr
  let baseL := if ptype = .HIGH then lwr else lel
  let baseR := if ptype = .HIGH then rwr else rel
  let underDist := (horizDist baseL lsh + horizDist baseR rsh) / 2
  let hipW := (hypot (lsh.x - rsh.x) (lsh.y - rsh.y) + hypot (lhip.x - rhip.x) (lhip.y - rhip.y)) / 2
  let feetW := hypot (lank.x - rank.x) (lank.y - rank.y) / max hipW 1
  { hipAngle := plankAngle3 sho hip ank,
    headAngle := plankAngle3 ear sho hip,
    shMis := verticalMisalignDeg lsh rsh,
    hipMis := verticalMisalignDeg lhip rhip,
    underDist := underDist, feetW := feetW, scale := scale, ptype := ptype }

/-- The six EMA accumulators after absorbing one frame
(exerciseLogic.ts lines 633-639). -/
structure PlankSm where
  hip : Option ℝ
  head : Option ℝ
  sSh : Option ℝ
  sHip : Option ℝ
  under : Option ℝ
  feet : Option ℝ

/-- Smoothing step of PlankEvaluator.update (exerciseLogic.ts lines 633-639). -/
def plankSmoothed (cfg : PlankCfg) (s : PlankSt) (lms : List Landmark) (w h : ℝ) : PlankSm :=
  let raw := plankRaw cfg lms w h
  { hip := plankEma cfg.emaAlpha s.hipAngSmooth (some raw.hipAngle),
    head := plankEma cfg.emaAlpha s.headAngSmooth (some raw.headAngle),
    sSh := plankEma cfg.emaAlpha s.stackShSmooth raw.shMis,
    sHip := plankEma cfg.emaAlpha s.stackHipSmooth raw.hipMis,
    under := plankEma cfg.emaAlpha s.underSmooth (some (raw.underDist / max raw.scale 1)),
    feet := plankEma cfg.emaAlpha s.feetWSmooth (some raw.feetW) }

/-- Hip sub-score (exerciseLogic.ts lines 645-662). -/
def hipScoreOf (cfg : PlankCfg) (x : Option ℝ) : ℝ :=
  match x with
  | none => 1
  | some v =>
      if v < cfg.hipSagMax then max 0 ((v - 90) / (cfg.hipSagMax - 90))
      else if v < cfg.hipOkLo then 0.5 + 0.5 * ((v - cfg.hipSagMax) / (cfg.hipOkLo - cfg.hipSagMax))
      else if cfg.hipPikeMin < v then max 0 (1 - (v - cfg.hipPikeMin) / 20)
      else if cfg.hipOkHi < v then 0.5 + 0.5 * (1 - (v - cfg.hipOkHi) / (cfg.hipPikeMin - cfg.hipOkHi))
      else 1

/-- Hip issue messages (exerciseLogic.ts lines 645-662). -/
def hipIssues (cfg : PlankCfg) (x : Option ℝ) : List String :=
  match x with
  | none => []
  | some v =>
      if v < cfg.hipSagMax then ["Hips sagging too much"]
      else if v < cfg.hipOkLo then ["Lift hips slightly"]
      else if cfg.hipPikeMin < v then ["Lower hips (piking)"]
      else if cfg.hipOkHi < v then ["Lower hips slightly"]
      else []

/-- Head sub-score (exerciseLogic.ts lines 665-675). -/
def headScoreOf (cfg : PlankCfg) (x : Option ℝ) : ℝ :=
  match x with
  | none => 1
  | some v =>
      if v < cfg.headOkLo then max 0 ((v - 90) / (cfg.headOkLo - 90))
      else if v < cfg.headOkLo + 10 then 0.8 + 0.2 * ((v - cfg.headOkLo) / 10)
      else 1

/-- Head issue messages (exerciseLogic.ts lines 665-675). -/
def headIssues (cfg : PlankCfg) (x : Option ℝ) : List String :=
  match x with
  | none => []
  | some v => if v < cfg.headOkLo then ["Look forward (head dropping)"] else []

/-- Stacking sub-score (exerciseLogic.ts lines 678-685): only scored when
both misalignment accumulators are non-`NaN`. -/
def stackScoreOf (cfg : PlankCfg) (x y : Option ℝ) : ℝ :=
  match x, y with
  | some a, some b =>
      if cfg.stackOkMaxDeg < max a b then max 0 (1 - (max a b - cfg.stackOkMaxDeg) / 15)
      else 1
  | _, _ => 1

/-- Stacking issue messages (exerciseLogic.ts lines 678-685). -/
def stackIssues (cfg : PlankCfg) (x y : Option ℝ) : List String :=
  match x, y with
  | some a, some b => if cfg.stackOkMaxDeg < max a b then ["Align shoulders/hips (no twist)"] else []
  | _, _ => []

/-- Under-shoulder sub-score (exerciseLogic.ts lines 688-694). -/
def underScoreOf (cfg : PlankCfg) (x : Option ℝ) : ℝ :=
  match x with
  | none => 1
  | some v =>
      if cfg.underShoulderPxNorm < v then max 0 (1 - (v - cfg.underShoulderPxNorm) / 0.3)
      else 1

/-- Under-shoulder issue messages (exerciseLogic.ts lines 688-694). -/
def underIssues (cfg : PlankCfg) (x : Option ℝ) : List String :=
  match x with
  | none => []
  | some v => if cfg.underShoulderPxNorm < v then ["Position hands/elbows under shoulders"] else []

/-- Feet-width sub-score (exerciseLogic.ts lines 697-706). -/
def feetScoreOf (cfg : PlankCfg) (x : Option ℝ) : ℝ :=
  match x with
  | none => 1
  | some v =>
      if v < cfg.feetMinWidth then max 0 (v / cfg.feetMinWidth)
      else if cfg.feetMaxWidth < v then max 0 (1 - (v - cfg.feetMaxWidth) / 0.6)
      else 1

/-- Feet-width issue messages (exerciseLogic.ts lines 697-706). -/
def feetIssues (cfg : PlankCfg) (x : Option ℝ) : List String :=
  match x with
  | none => []
  | some v =>
      if v < cfg.feetMinWidth then ["Widen feet to hip-width"]
      else if cfg.feetMaxWidth < v then ["Narrow feet to hip-width"]
      else []

/-- JavaScript `w || d` for a weight lookup (undefined cannot occur with the
default record, and a zero weight falls back like in JavaScript). -/
def wOr (w d : ℝ) : ℝ := if w = 0 then d else w

/-- Overall plank score (exerciseLogic.ts lines 709-715): weighted sum of
the five sub-scores, times 100. -/
def overallOf (cfg : PlankCfg) (sm : PlankSm) : ℝ :=
  (wOr cfg.wHip 0.35 * hipScoreOf cfg sm.hip +
   wOr cfg.wHead 0.15 * headScoreOf cfg sm.head +
   wOr cfg.wStack 0.15 * stackScoreOf cfg sm.sSh sm.sHip +
   wOr cfg.wUnder 0.2 * underScoreOf cfg sm.under +
   wOr cfg.wFeet 0.15 * feetScoreOf cfg sm.feet) * 100

/-- Issue list in source push order: hip, head, stack, under, feet
(exerciseLogic.ts lines 642-706). -/
def plankIssuesOf (cfg : PlankCfg) (sm : PlankSm) : List String :=
  hipIssues cfg sm.hip ++ headIssues cfg sm.head ++ stackIssues cfg sm.sSh sm.sHip ++
  underIssues cfg sm.under ++ feetIssues cfg sm.feet

/-- stableEnough (exerciseLogic.ts line 724): this frame's overall score
above 50 and all core landmarks visible. -/
def plankStable (cfg : PlankCfg) (s : PlankSt) (lms : List Landmark) (w h : ℝ) : Prop :=
  50 < overallOf cfg (plankSmoothed cfg s lms w h) ∧ plankCoreVis cfg lms w h

/-- PlankEvaluator.update (exerciseLogic.ts lines 559-762) with `Date.now()`
made an explicit `now` argument. -/
def plankUpdate (cfg : PlankCfg) (s : PlankSt) (lms : List Landmark)
    (w h now : ℝ) : PlankSt :=
  if lms.length < 33 then s else
  if ¬ plankCritVis cfg lms w h then
    let s0 := if s.state ≠ PlankState.NOT_READY then
        { s with state := .NOT_READY, stateStartTime := now, holdStartTime := none }
      else s
    { s0 with formWarnings := ["Keep at least one shoulder and knee visible"], overallScore := 0 }
  else
    let raw := plankRaw cfg lms w h
    let sm := plankSmoothed cfg s lms w h
    let overall := overallOf cfg sm
    let stable := plankStable cfg s lms w h
    let sBase :=
      { s with
        hipAngle := some raw.hipAngle, headAngle := some raw.headAngle,
        shoulderMisalignment := raw.shMis, hipMisalignment := raw.hipMis,
        plankType := raw.ptype, underShoulderDist := some raw.underDist,
        feetWidthRel := some raw.feetW,
        hipAngSmooth := sm.hip, headAngSmooth := sm.head,
        stackShSmooth := sm.sSh, stackHipSmooth := sm.sHip,
        underSmooth := sm.under, feetWSmooth := sm.feet,
        hipScore := hipScoreOf cfg sm.hip, headScore := headScoreOf cfg sm.head,
        stackScore := stackScoreOf cfg sm.sSh sm.sHip,
        underScore := underScoreOf cfg sm.under, feetScore := feetScoreOf cfg sm.feet,
        overallScore := overall, formWarnings := plankIssuesOf cfg sm }
    let sFSM :=
      match s.state with
      | .NOT_READY =>
          if stable then { sBase with state := .READY, stateStartTime := now } else sBase
      | .READY =>
          if ¬ stable then { sBase with state := .NOT_READY, stateStartTime := now }
          else if cfg.readySeconds ≤ (now - s.stateStartTime) / 1000 then
            { sBase with state := .HOLDING, holdStartTime := some now }
          else sBase
      | .HOLDING =>
          let t' := s.totalTime + (now - s.lastUpdateTime) / 1000
          if ¬ stable then
            { sBase with
                totalTime := t', state := .NOT_READY, stateStartTime := now,
                holdStartTime := none }
          else { sBase with totalTime := t' }
    let ht := match sFSM.holdStartTime with
      | some t => (now - t) / 1000
      | none => 0
    { sFSM with holdTime := ht, bestHold := max s.bestHold ht, lastUpdateTime := now }

/-- PlankEvaluator.getStateLabel (exerciseLogic.ts lines 782-788). -/
def plankStateLabel : PlankState → String
  | .NOT_READY => "Get in position"
  | .READY => "Hold steady..."
  | .HOLDING => "Holding"

/-- The fields of PlankEvaluator.getState used by the wrapper
(exerciseLogic.ts lines 764-780); plank reports no rep count. -/
structure PlankSnapshot where
  count : ℕ
  warning : String
  state : PlankState
  holdTime : ℝ
  bestHold : ℝ
  overallScore : ℝ

/-- PlankEvaluator.getState (exerciseLogic.ts lines 764-780). -/
def plankGetState (s : PlankSt) : PlankSnapshot :=
  { count := 0, warning := s.formWarnings.headD "", state := s.state,
    holdTime := s.holdTime, bestHold := s.bestHold, overallScore := s.overallScore }

/-- Output stage (src/types.ts line 23). -/
inductive Stage where
  | UP
  | DOWN
  | NEUTRAL
deriving DecidableEq

/-- ExerciseState (src/types.ts lines 19-28); optional fields are `Option`s. -/
structure ExerciseState where
  count : ℕ
  feedback : String
  isCorrectForm : Prop
  stage : Stage
  timer : Option ℝ
  visibilityIssue : Option Prop
  landmarksNeedingImprovement : Option (List ℕ)

/-- The module-scope singleton evaluators (exerciseLogic.ts lines 795-797):
one shared mutable instance per exercise type, read and written by the
exported wrapper functions. -/
structure ModuleState where
  pushup : PushupCtr
  squat : SquatCtr
  plank : PlankSt

/-- The module state right after module initialization: each singleton is a
freshly constructed evaluator (`now` stands for `Date.now()` at plank
construction time). -/
def moduleInit (now : ℝ) : ModuleState :=
  { pushup := pushupReset, squat := squatReset, plank := plankReset now }

/-- processPushup (exerciseLogic.ts lines 803-838): updates the shared
pushup singleton with fixed 640x480 dimensions and side 'right', then maps
its snapshot to an `ExerciseState`; the incoming `state` argument is ignored. -/
def processPushupW (ms : ModuleState) (lms : List Landmark) (st : ExerciseState) :
    ModuleState × ExerciseState :=
  let c := pushupUpdate pushupCfgD ms.pushup lms 640 480 "right"
  let warn := c.formWarning
  let res : ExerciseState :=
    { count := c.count,
      feedback := if warn = "" then
          (match c.state with
           | .UP => "Go Down"
           | .DOWN => "Push Up"
           | .UNARMED => "Get Ready")
        else warn,
      isCorrectForm := warn = "",
      stage := match c.state with
        | .UP => .UP
        | .DOWN => .DOWN
        | .UNARMED => .NEUTRAL,
      timer := none,
      visibilityIssue := some (strIncludes warn "visible" ∨ strIncludes warn "frame"),
      landmarksNeedingImprovement :=
        if strIncludes warn "legs" then some [LEFT_KNEE, RIGHT_KNEE, LEFT_HIP, RIGHT_HIP]
        else if strIncludes warn "arms" then some [LEFT_ELBOW, RIGHT_ELBOW, LEFT_WRIST, RIGHT_WRIST]
        else some [] }
  ({ ms with pushup := c }, res)

/-- The visibility gate of the exported processSquat
(exerciseLogic.ts lines 855-856): `(visibility || 0) > 0.5` — an absent
visibility is coalesced to 0 and the comparison is strict. -/
def squatGateVisible (lm : Landmark) : Prop :=
  0.5 < (match lm.visibility with
         | none => (0 : ℝ)
         | some v => v)

/-- processSquat (exerciseLogic.ts lines 840-932): a pure function of its
arguments; it touches no module-scope evaluator. -/
def processSquatPure (lms : List Landmark) (st : ExerciseState) : ExerciseState :=
  let leftVis := squatGateVisible (lmAt lms LEFT_HIP) ∧ squatGateVisible (lmAt lms LEFT_KNEE)
  let rightVis := squatGateVisible (lmAt lms RIGHT_HIP) ∧ squatGateVisible (lmAt lms RIGHT_KNEE)
  if ¬ leftVis ∧ ¬ rightVis then
    { st with feedback := "Full body visible?", isCorrectForm := False,
              visibilityIssue := some True,
              landmarksNeedingImprovement := some [LEFT_HIP, RIGHT_HIP, LEFT_KNEE, RIGHT_KNEE] }
  else
    let p1 := fun i => toPoint (lmAt lms i) 1 1
    let kha : ℝ × ℝ × Prop :=
      if leftVis ∧ rightVis then
        (((calculateAngle2D (p1 LEFT_HIP) (p1 LEFT_KNEE) (p1 LEFT_ANKLE)) +
          (calculateAngle2D (p1 RIGHT_HIP) (p1 RIGHT_KNEE) (p1 RIGHT_ANKLE))) / 2, 180, False)
      else if leftVis then
        (calculateAngle2D (p1 LEFT_HIP) (p1 LEFT_KNEE) (p1 LEFT_ANKLE),
         calculateAngle2D (p1 LEFT_SHOULDER) (p1 LEFT_HIP) (p1 LEFT_KNEE), True)
      else
        (calculateAngle2D (p1 RIGHT_HIP) (p1 RIGHT_KNEE) (p1 RIGHT_ANKLE),
         calculateAngle2D (p1 RIGHT_SHOULDER) (p1 RIGHT_HIP) (p1 RIGHT_KNEE), True)
    let kneeAngle := kha.1
    let hipAngle := kha.2.1
    let checkLean := kha.2.2
    if checkLean ∧ hipAngle < 55 then
      { st with feedback := "Keep Chest Up", isCorrectForm := False,
                visibilityIssue := some False,
                landmarksNeedingImprovement := some [LEFT_SHOULDER, RIGHT_SHOULDER, LEFT_HIP, RIGHT_HIP] }
    else
      let st1 := { st with isCorrectForm := True, visibilityIssue := some False,
                           landmarksNeedingImprovement := some ([] : List ℕ) }
      if 165 ≤ kneeAngle then
        if st.stage = .DOWN then
          { st1 with count := st.count + 1, stage := .UP, feedback := "Good Squat!" }
        else { st1 with stage := .UP, feedback := "Squat Down" }
      else if kneeAngle ≤ 95 then
        { st1 with stage := .DOWN, feedback := "Stand Up" }
      else
        { st1 with feedback :=
            if st.stage = .UP then "Lowering..."
            else if st.stage = .DOWN then "Rising..."
            else "Get Ready" }

/-- processSquat viewed, like its siblings, as acting on the module state:
its body references no singleton, so the module state passes through. -/
def processSquatW (ms : ModuleState) (lms : List Landmark) (st : ExerciseState) :
    ModuleState × ExerciseState :=
  (ms, processSquatPure lms st)

/-- processPlank (exerciseLogic.ts lines 934-990): updates the shared plank
singleton with fixed 640x480 dimensions (the ambient `Date.now()` is the
explicit `now`), then maps its snapshot; the incoming `state` is ignored. -/
def processPlankW (now : ℝ) (ms : ModuleState) (lms : List Landmark) (st : ExerciseState) :
    ModuleState × ExerciseState :=
  let p := plankUpdate plankCfgD ms.plank lms 640 480 now
  let snap := plankGetState p
  let warn := snap.warning
  let res : ExerciseState :=
    { count := 0,
      feedback := if warn = "" then plankStateLabel p.state else warn,
      isCorrectForm := warn = "" ∧ p.state = PlankState.HOLDING,
      stage := .NEUTRAL,
      timer := some snap.holdTime,
      visibilityIssue := some (strIncludes warn "visible"),
      landmarksNeedingImprovement :=
        if strIncludes warn "hips" then
          some [LEFT_SHOULDER, RIGHT_SHOULDER, LEFT_HIP, RIGHT_HIP, LEFT_ANKLE, RIGHT_ANKLE]
        else if strIncludes warn "head" then some [LEFT_SHOULDER, RIGHT_SHOULDER]
        else if strIncludes warn "shoulders" ∨ strIncludes warn "twist" then
          some [LEFT_SHOULDER, RIGHT_SHOULDER, LEFT_HIP, RIGHT_HIP]
        else if strIncludes warn "hands" ∨ strIncludes warn "elbows" then
          some [LEFT_WRIST, RIGHT_WRIST, LEFT_ELBOW, RIGHT_ELBOW, LEFT_SHOULDER, RIGHT_SHOULDER]
        else if strIncludes warn "feet" then some [LEFT_ANKLE, RIGHT_ANKLE]
        else some [] }
  ({ ms with plank := p }, res)

/-- The knee-visibility test of the stateless processPushup implementation
(src/unnamed/part_000 lines 27-28): `visibility !== undefined &&
visibility > 0.5` — an absent visibility counts as NOT visible and the
comparison with the threshold is strict. -/
def statelessKneeVisible (lm : Landmark) : Prop :=
  ∃ v, lm.visibility = some v ∧ 0.5 < v

/-! ### Shared lemmas about the angle primitives -/

lemma arccosDeg_nonneg (x : ℝ) : 0 ≤ Real.arccos x * 180 / Real.pi := by
  have h := Real.arccos_nonneg x
  positivity

lemma arccosDeg_le_180 (x : ℝ) : Real.arccos x * 180 / Real.pi ≤ 180 := by
  rw [div_le_iff₀ Real.pi_pos]
  nlinarith [Real.arccos_le_pi x]

lemma hypot_zero_right (x : ℝ) : hypot x 0 = |x| := by
  rw [hypot, show x ^ 2 + (0:ℝ) ^ 2 = x ^ 2 by ring, Real.sqrt_sq_eq_abs]

lemma hypot_zero_left (y : ℝ) : hypot 0 y = |y| := by
  rw [hypot, show (0:ℝ) ^ 2 + y ^ 2 = y ^ 2 by ring, Real.sqrt_sq_eq_abs]

/-- The clamped cosine of two exactly antiparallel horizontal 2D vectors is
-1, so the 2D angle is 180 degrees. -/
lemma calculateAngle2D_eq_180 (a b c : Point) (hay : a.y = b.y) (hcy : c.y = b.y)
    (hprod : (a.x - b.x) * (c.x - b.x) ≤ -1e-9) : calculateAngle2D a b c = 180 := by
  have hne : (a.x - b.x) * (c.x - b.x) ≠ 0 := by nlinarith
  simp only [calculateAngle2D, hay, hcy, sub_self, hypot]
  have h0 : ((0 : ℝ)) ^ 2 = 0 := by norm_num
  rw [show (a.x - b.x) ^ 2 + (0:ℝ) ^ 2 = (a.x - b.x) ^ 2 by ring,
      show (c.x - b.x) ^ 2 + (0:ℝ) ^ 2 = (c.x - b.x) ^ 2 by ring,
      Real.sqrt_sq_eq_abs, Real.sqrt_sq_eq_abs, ← abs_mul]
  have habs : |(a.x - b.x) * (c.x - b.x)| = -((a.x - b.x) * (c.x - b.x)) := by
    rw [abs_of_nonpos]; nlinarith
  have hmax : max 1e-9 |(a.x - b.x) * (c.x - b.x)| = -((a.x - b.x) * (c.x - b.x)) := by
    rw [habs]; exact max_eq_right (by nlinarith)
  rw [hmax]
  have hdiv : ((a.x - b.x) * (c.x - b.x) + 0 * 0) / -((a.x - b.x) * (c.x - b.x)) = -1 := by
    rw [mul_zero, add_zero, div_neg, div_self hne]
  rw [hdiv]
  have : max (-1 : ℝ) (min 1 (-1)) = -1 := by norm_num
  rw [this, Real.arccos_neg_one]
  field_simp

/-- The clamped cosine of two exactly parallel horizontal 2D vectors is 1,
so the 2D angle is 0 degrees. -/
lemma calculateAngle2D_eq_0 (a b c : Point) (hay : a.y = b.y) (hcy : c.y = b.y)
    (hprod : 1e-9 ≤ (a.x - b.x) * (c.x - b.x)) : calculateAngle2D a b c = 0 := by
  have hne : (a.x - b.x) * (c.x - b.x) ≠ 0 := by nlinarith
  simp only [calculateAngle2D, hay, hcy, sub_self, hypot]
  rw [show (a.x - b.x) ^ 2 + (0:ℝ) ^ 2 = (a.x - b.x) ^ 2 by ring,
      show (c.x - b.x) ^ 2 + (0:ℝ) ^ 2 = (c.x - b.x) ^ 2 by ring,
      Real.sqrt_sq_eq_abs, Real.sqrt_sq_eq_abs, ← abs_mul]
  have habs : |(a.x - b.x) * (c.x - b.x)| = (a.x - b.x) * (c.x - b.x) := by
    rw [abs_of_nonneg]; nlinarith
  have hmax : max 1e-9 |(a.x - b.x) * (c.x - b.x)| = (a.x - b.x) * (c.x - b.x) := by
    rw [habs]; exact max_eq_right (by nlinarith)
  rw [hmax]
  have hdiv : ((a.x - b.x) * (c.x - b.x) + 0 * 0) / ((a.x - b.x) * (c.x - b.x)) = 1 := by
    rw [mul_zero, add_zero, div_self hne]
  rw [hdiv]
  have : max (-1 : ℝ) (min 1 1) = 1 := by norm_num
  rw [this, Real.arccos_one]
  norm_num

/-- When the first point coincides with the vertex, the 2D dot product is 0
and the epsilon floor makes the quotient 0, giving 90 degrees. -/
lemma calculateAngle2D_eq_90 (a b c : Point) (hax : a.x = b.x) (hay : a.y = b.y) :
    calculateAngle2D a b c = 90 := by
  simp only [calculateAngle2D, hax, hay, sub_self, hypot]
  rw [show (0:ℝ) ^ 2 + 0 ^ 2 = 0 by ring, Real.sqrt_zero]
  simp only [zero_mul, zero_add, add_zero]
  have h1 : max (1e-9 : ℝ) 0 = 1e-9 := max_eq_left (by norm_num)
  rw [h1, zero_div]
  have h3 : min (1 : ℝ) 0 = 0 := min_eq_right (by norm_num)
  have h4 : max (-1 : ℝ) (0 : ℝ) = 0 := max_eq_right (by norm_num)
  rw [h3, h4, Real.arccos_zero]
  field_simp
  ring

/-- The plank 3D angle of two exactly antiparallel vertical segments is
180 degrees (straight body line). -/
lemma plankAngle3_eq_180 (a b c : Point) (hax : a.x = b.x) (hcx : c.x = b.x)
    (haz : a.z = b.z) (hcz : c.z = b.z)
    (hprod : (a.y - b.y) * (c.y - b.y) ≤ -1e-9) : plankAngle3 a b c = 180 := by
  have hne : (a.y - b.y) * (c.y - b.y) ≠ 0 := by nlinarith
  simp only [plankAngle3, hax, hcx, haz, hcz, sub_self]
  rw [show (0:ℝ) * 0 + (a.y - b.y) * (a.y - b.y) + 0 * 0 = (a.y - b.y) ^ 2 by ring,
      show (0:ℝ) * 0 + (c.y - b.y) * (c.y - b.y) + 0 * 0 = (c.y - b.y) ^ 2 by ring,
      Real.sqrt_sq_eq_abs, Real.sqrt_sq_eq_abs, ← abs_mul]
  have habs : |(a.y - b.y) * (c.y - b.y)| = -((a.y - b.y) * (c.y - b.y)) := by
    rw [abs_of_nonpos]; nlinarith
  have hmax : max 1e-9 |(a.y - b.y) * (c.y - b.y)| = -((a.y - b.y) * (c.y - b.y)) := by
    rw [habs]; exact max_eq_right (by nlinarith)
  rw [hmax]
  have hdiv : ((0:ℝ) * 0 + (a.y - b.y) * (c.y - b.y) + 0 * 0) /
      -((a.y - b.y) * (c.y - b.y)) = -1 := by
    rw [zero_mul, zero_add, add_zero, div_neg, div_self hne]
  rw [hdiv]
  have : max (-1 : ℝ) (min 1 (-1)) = -1 := by norm_num
  rw [this, Real.arccos_neg_one]
  have hpi : Real.pi * 180 / Real.pi = 180 := by
    field_simp
  rw [hpi]
  norm_num

/-- When the first point coincides with the vertex, the inner 3D angle is 90
degrees, so the re-centered plank angle is 270 degrees. -/
lemma plankAngle3_eq_270 (a b c : Point) (hax : a.x = b.x) (hay : a.y = b.y)
    (haz : a.z = b.z) : plankAngle3 a b c = 270 := by
  simp only [plankAngle3, hax, hay, haz, sub_self]
  rw [show (0:ℝ) * 0 + 0 * 0 + 0 * 0 = 0 by ring, Real.sqrt_zero]
  simp only [zero_mul, zero_add, add_zero]
  have h1 : max (1e-9 : ℝ) 0 = 1e-9 := max_eq_left (by norm_num)
  rw [h1, zero_div]
  have h3 : min (1 : ℝ) 0 = 0 := min_eq_right (by norm_num)
  have h4 : max (-1 : ℝ) (0 : ℝ) = 0 := max_eq_right (by norm_num)
  rw [h3, h4, Real.arccos_zero]
  have hpi : Real.pi / 2 * 180 / Real.pi = 90 := by
    field_simp
    ring
  rw [hpi]
  norm_num

/-- A degenerate (zero-length) left-right segment yields a NaN vertical
misalignment. -/
lemma verticalMisalignDeg_degen (l r : Point) (hx : r.x = l.x) (hy : r.y = l.y)
    (hz : r.z = l.z) : verticalMisalignDeg l r = none := by
  simp only [verticalMisalignDeg, hx, hy, hz, sub_self]
  rw [show (0:ℝ) * 0 + 0 * 0 + 0 * 0 = 0 by ring, Real.sqrt_zero]
  rw [if_pos (by norm_num)]

/-- A level (same height and depth) left-right segment of non-negligible
length is perfectly horizontal: misalignment 0 degrees. -/
lemma verticalMisalignDeg_level (l r : Point) (hy : r.y = l.y) (hz : r.z = l.z)
    (hlen : 1e-6 ≤ |r.x - l.x|) : verticalMisalignDeg l r = some 0 := by
  simp only [verticalMisalignDeg, hy, hz, sub_self]
  rw [show (r.x - l.x) * (r.x - l.x) + (0:ℝ) * 0 + 0 * 0 = (r.x - l.x) ^ 2 by ring,
      Real.sqrt_sq_eq_abs, hypot_zero_right]
  rw [if_neg (by push_neg; linarith), if_neg (by push_neg; linarith)]
  rw [div_self (by intro h; rw [h] at hlen; norm_num at hlen)]
  have h3 : min (1 : ℝ) 1 = 1 := min_self 1
  have h4 : max (-1 : ℝ) (1 : ℝ) = 1 := max_eq_right (by norm_num)
  rw [h3, h4, Real.arccos_one]
  norm_num

/-- A degenerate shoulder-elbow segment makes the classifier's inner elbow
angle NaN. -/
lemma classifyElbowAngle_degen (sh el wr : Point) (hx : sh.x = el.x)
    (hy : sh.y = el.y) (hz : sh.z = el.z) : classifyElbowAngle sh el wr = none := by
  simp only [classifyElbowAngle, hx, hy, hz, sub_self]
  rw [show (0:ℝ) * 0 + 0 * 0 + 0 * 0 = 0 by ring, Real.sqrt_zero]
  rw [if_pos (Or.inl (by norm_num))]

/-! ### C7: angle functions are total and bounded -/

/-- C7: For all finite input points a, b, c — including degenerate
configurations where a == b or c == b or any vector has zero length — the
angle-at-vertex functions (2D and 3D variants) return a defined, non-NaN
value lying in [0, 180] degrees.  In the real-valued embedding the epsilon
floor on the denominator and the clamp of the cosine make both functions
total, and the result is `arccos` of a clamped value scaled into degrees,
hence within [0, 180]. -/
theorem c7_angle_functions_bounded (a b c : Point) :
    (0 ≤ calculateAngle2D a b c ∧ calculateAngle2D a b c ≤ 180) ∧
    (0 ≤ calculateAngle3D a b c ∧ calculateAngle3D a b c ≤ 180) := by
  refine ⟨⟨?_, ?_⟩, ⟨?_, ?_⟩⟩
  · simp only [calculateAngle2D]
    exact arccosDeg_nonneg _
  · simp only [calculateAngle2D]
    exact arccosDeg_le_180 _
  · simp only [calculateAngle3D]
    exact arccosDeg_nonneg _
  · simp only [calculateAngle3D]
    exact arccosDeg_le_180 _

/-! ### C2: rep counts start at zero and never decrease -/

/-- A sequence of pushup update calls, each with its own frame, dimensions
and requested side. -/
def pushupRun (cfg : PushupCfg) (s : PushupCtr)
    (frames : List (List Landmark × ℝ × ℝ × String)) : PushupCtr :=
  frames.foldl (fun st f => pushupUpdate cfg st f.1 f.2.1 f.2.2.1 f.2.2.2) s

/-- A sequence of squat update calls. -/
def squatRun (cfg : SquatCfg) (s : SquatCtr)
    (frames : List (List Landmark × ℝ × ℝ × String)) : SquatCtr :=
  frames.foldl (fun st f => squatUpdate cfg st f.1 f.2.1 f.2.2.1 f.2.2.2) s

/-- A sequence of plank update calls, each with its own timestamp. -/
def plankRun (cfg : PlankCfg) (s : PlankSt)
    (frames : List (List Landmark × ℝ × ℝ × ℝ)) : PlankSt :=
  frames.foldl (fun st f => plankUpdate cfg st f.1 f.2.1 f.2.2.1 f.2.2.2) s

lemma pushupUpdate_count_mono (cfg : PushupCfg) (s : PushupCtr) (lms : List Landmark)
    (w h : ℝ) (side : String) : s.count ≤ (pushupUpdate cfg s lms w h side).count := by
  obtain ⟨st, cnt, eA, kA, fw, lq⟩ := s
  by_cases hl : lms.length < 33
  · simp [pushupUpdate, hl]
  · cases st <;>
      simp only [pushupUpdate, if_neg hl] <;>
      split_ifs <;> simp [Nat.le_succ]

lemma squatUpdate_count_mono (cfg : SquatCfg) (s : SquatCtr) (lms : List Landmark)
    (w h : ℝ) (side : String) : s.count ≤ (squatUpdate cfg s lms w h side).count := by
  obtain ⟨st, cnt, kA, hA, fw, lw, vq, kE, hE⟩ := s
  cases st <;>
    simp only [squatUpdate] <;>
    split_ifs <;> simp [Nat.le_succ]

lemma pushupRun_count_mono (cfg : PushupCfg) (s : PushupCtr)
    (frames : List (List Landmark × ℝ × ℝ × String)) :
    s.count ≤ (pushupRun cfg s frames).count := by
  induction frames generalizing s with
  | nil => exact le_refl _
  | cons f fs ih =>
      calc s.count ≤ (pushupUpdate cfg s f.1 f.2.1 f.2.2.1 f.2.2.2).count :=
            pushupUpdate_count_mono ..
        _ ≤ (pushupRun cfg (pushupUpdate cfg s f.1 f.2.1 f.2.2.1 f.2.2.2) fs).count := ih _
        _ = (pushupRun cfg s (f :: fs)).count := rfl

lemma squatRun_count_mono (cfg : SquatCfg) (s : SquatCtr)
    (frames : List (List Landmark × ℝ × ℝ × String)) :
    s.count ≤ (squatRun cfg s frames).count := by
  induction frames generalizing s with
  | nil => exact le_refl _
  | cons f fs ih =>
      calc s.count ≤ (squatUpdate cfg s f.1 f.2.1 f.2.2.1 f.2.2.2).count :=
            squatUpdate_count_mono ..
        _ ≤ (squatRun cfg (squatUpdate cfg s f.1 f.2.1 f.2.2.1 f.2.2.2) fs).count := ih _
        _ = (squatRun cfg s (f :: fs)).count := rfl

/-- C2: For every evaluator (push-up, squat, plank), immediately after
reset() the rep count is 0, and across any sequence of update calls the
count is monotonically non-decreasing — only reset() can lower it.  The
plank evaluator has no rep counter at all: its snapshot always reports 0. -/
theorem c2_count_reset_zero_and_monotone :
    (pushupReset.count = 0 ∧ squatReset.count = 0 ∧
      ∀ now : ℝ, (plankGetState (plankReset now)).count = 0) ∧
    (∀ (cfg : PushupCfg) (s : PushupCtr) frames, s.count ≤ (pushupRun cfg s frames).count) ∧
    (∀ (cfg : SquatCfg) (s : SquatCtr) frames, s.count ≤ (squatRun cfg s frames).count) ∧
    (∀ s : PlankSt, (plankGetState s).count = 0) := by
  refine ⟨⟨rfl, rfl, fun _ => rfl⟩, ?_, ?_, fun _ => rfl⟩
  · exact fun cfg s frames => pushupRun_count_mono cfg s frames
  · exact fun cfg s frames => squatRun_count_mono cfg s frames

/-! ### C1: behaviour of a pushup update in state DOWN -/

/-- C1: On every processed update call made while the push-up machine is in
state DOWN, the qualification flag is OR-accumulated with the frame's
legsExtended observation; the DOWN to UP transition fires exactly when the
measured elbow angle is at least upThresh (145 for the default
configuration) and the accumulated flag holds, in which case count
increases by exactly 1 and the flag resets to false; otherwise count and
state are unchanged and the flag keeps its accumulated value. -/
theorem c1_pushup_down_step (s : PushupCtr) (lms : List Landmark) (w h : ℝ)
    (side : String) (hs : s.state = PushupState.DOWN) (hlen : 33 ≤ lms.length) :
    ((145 ≤ pushupElbow pushupCfgD lms w h side ∧
        (s.legsQualified ∨ pushupLegsExtended pushupCfgD lms w h side)) →
      (pushupUpdate pushupCfgD s lms w h side).state = PushupState.UP ∧
      (pushupUpdate pushupCfgD s lms w h side).count = s.count + 1 ∧
      ¬ (pushupUpdate pushupCfgD s lms w h side).legsQualified) ∧
    (¬ (145 ≤ pushupElbow pushupCfgD lms w h side ∧
        (s.legsQualified ∨ pushupLegsExtended pushupCfgD lms w h side)) →
      (pushupUpdate pushupCfgD s lms w h side).count = s.count ∧
      (pushupUpdate pushupCfgD s lms w h side).state = PushupState.DOWN ∧
      ((pushupUpdate pushupCfgD s lms w h side).legsQualified ↔
        (s.legsQualified ∨ pushupLegsExtended pushupCfgD lms w h side))) := by
  have hl : ¬ lms.length < 33 := by omega
  obtain ⟨st, cnt, eA, kA, fw, lq⟩ := s
  simp only at hs
  subst hs
  simp only [pushupUpdate, if_neg hl, pushupCfgD]
  constructor
  · intro hfire
    rw [if_pos hfire]
    exact ⟨rfl, rfl, not_false⟩
  · intro hmiss
    rw [if_neg hmiss]
    exact ⟨rfl, rfl, Iff.rfl⟩

/-! ### Concrete frames used by witnesses and counterexamples -/

/-- A 33-entry frame built from an index function. -/
def mkFrame (f : ℕ → Landmark) : List Landmark := (List.range 33).map f

lemma mkFrame_length (f : ℕ → Landmark) : (mkFrame f).length = 33 := by
  simp [mkFrame]

lemma lmAt_mkFrame (f : ℕ → Landmark) (i : ℕ) (hi : i < 33) :
    lmAt (mkFrame f) i = f i := by
  simp [lmAt, mkFrame, List.getD, List.getElem?_map, List.getElem?_range, hi]

/-- A fully visible landmark at the origin. -/
def dLM : Landmark := ⟨0, 0, 0, some 1⟩

/-- A frame (used with 1x1 dimensions) in which the right arm is straight
(elbow angle 180) and the right leg is straight (knee angle 180); every
landmark is fully visible. -/
def frameUfn : ℕ → Landmark := fun i =>
  if i = RIGHT_ELBOW then ⟨1, 0, 0, some 1⟩
  else if i = RIGHT_WRIST then ⟨2, 0, 0, some 1⟩
  else if i = RIGHT_HIP then ⟨0, 1, 0, some 1⟩
  else if i = RIGHT_KNEE then ⟨1, 1, 0, some 1⟩
  else if i = RIGHT_ANKLE then ⟨2, 1, 0, some 1⟩
  else dLM

def frameU : List Landmark := mkFrame frameUfn

/-- A push-up counter state parked in DOWN with the qualification flag set. -/
def ctrDOWN : PushupCtr := { pushupReset with state := .DOWN, legsQualified := True }

/-- Witness for C1 at a concrete DOWN state and a concrete 33-landmark frame. -/
theorem c1_pushup_down_step_witness :
    ctrDOWN.state = PushupState.DOWN ∧ 33 ≤ frameU.length ∧
    (((145 ≤ pushupElbow pushupCfgD frameU 1 1 "right" ∧
        (ctrDOWN.legsQualified ∨ pushupLegsExtended pushupCfgD frameU 1 1 "right")) →
      (pushupUpdate pushupCfgD ctrDOWN frameU 1 1 "right").state = PushupState.UP ∧
      (pushupUpdate pushupCfgD ctrDOWN frameU 1 1 "right").count = ctrDOWN.count + 1 ∧
      ¬ (pushupUpdate pushupCfgD ctrDOWN frameU 1 1 "right").legsQualified) ∧
    (¬ (145 ≤ pushupElbow pushupCfgD frameU 1 1 "right" ∧
        (ctrDOWN.legsQualified ∨ pushupLegsExtended pushupCfgD frameU 1 1 "right")) →
      (pushupUpdate pushupCfgD ctrDOWN frameU 1 1 "right").count = ctrDOWN.count ∧
      (pushupUpdate pushupCfgD ctrDOWN frameU 1 1 "right").state = PushupState.DOWN ∧
      ((pushupUpdate pushupCfgD ctrDOWN frameU 1 1 "right").legsQualified ↔
        (ctrDOWN.legsQualified ∨ pushupLegsExtended pushupCfgD frameU 1 1 "right")))) :=
  ⟨rfl, by rw [frameU, mkFrame_length],
    c1_pushup_down_step ctrDOWN frameU 1 1 "right" rfl (by rw [frameU, mkFrame_length])⟩

/-! ### C4: behaviour on frames with fewer than 33 landmarks -/

lemma squatEma_self (cfg : SquatCfg) (p : Option ℝ) : squatEma cfg p p = p := by
  unfold squatEma
  cases p with
  | none => split_ifs <;> rfl
  | some v =>
      split_ifs with h
      · rfl
      · simp only [Option.some.injEq]
        ring

/-- The squat evaluator state used in the C4 counterexample: mid-rep in
DOWN, qualification flag earned, no active warning. -/
def sqDOWNq : SquatCtr :=
  { squatReset with
      state := .DOWN, visibilityQualified := True,
      kneeAngle := some 100, kneeEma := some 100, hipAngle := some 100, hipEma := some 100 }

/-- Counterexample to C4 as stated: a squat update call with an empty
landmark list (fewer than 33 entries) does NOT leave the evaluator's state
exactly as it was — it rewrites the form warning (and, per
`c4_short_frame_behavior`, clears the DOWN-phase qualification flag). -/
theorem c4_counterexample :
    (squatUpdate squatCfgD sqDOWNq [] 1 1 "right").formWarning = "Keep legs in frame" ∧
    sqDOWNq.formWarning = "" ∧
    squatUpdate squatCfgD sqDOWNq [] 1 1 "right" ≠ sqDOWNq := by
  have hw : (squatUpdate squatCfgD sqDOWNq [] 1 1 "right").formWarning =
      "Keep legs in frame" := by
    simp only [squatUpdate, computeMetrics, List.length_nil, sqDOWNq, squatReset]
    norm_num [warningFromMetrics, depthReached, squatEma, squatCfgD]
  refine ⟨hw, rfl, fun he => ?_⟩
  rw [he] at hw
  have : sqDOWNq.formWarning = "" := rfl
  rw [this] at hw
  exact absurd hw (by decide)

/-- C4, amended: for the push-up and plank evaluators a frame with fewer
than 33 landmarks is a strict no-op; the squat evaluator, however, still
processes such a frame with `legsVisible` false: FSM state, count and the
(held) smoothed angles are unchanged, but the form warnings are rewritten
to "Keep legs in frame" and the DOWN-phase qualification flag is
AND-accumulated with false (i.e. cleared; it survives only in state UP).
The two angle-field hypotheses are the evaluator's own invariant (update
always stores the smoothed values in both fields). -/
theorem c4_short_frame_behavior (lms : List Landmark) (w h : ℝ) (side : String)
    (now : ℝ) (hlen : lms.length < 33) :
    (∀ (cfg : PushupCfg) (s : PushupCtr), pushupUpdate cfg s lms w h side = s) ∧
    (∀ (cfg : PlankCfg) (s : PlankSt), plankUpdate cfg s lms w h now = s) ∧
    (∀ (cfg : SquatCfg) (s : SquatCtr), s.kneeAngle = s.kneeEma → s.hipAngle = s.hipEma →
      (squatUpdate cfg s lms w h side).state = s.state ∧
      (squatUpdate cfg s lms w h side).count = s.count ∧
      (squatUpdate cfg s lms w h side).kneeEma = s.kneeEma ∧
      (squatUpdate cfg s lms w h side).hipEma = s.hipEma ∧
      (squatUpdate cfg s lms w h side).kneeAngle = s.kneeAngle ∧
      (squatUpdate cfg s lms w h side).hipAngle = s.hipAngle ∧
      (squatUpdate cfg s lms w h side).formWarning = "Keep legs in frame" ∧
      (squatUpdate cfg s lms w h side).liveWarning = "Keep legs in frame" ∧
      ((squatUpdate cfg s lms w h side).visibilityQualified ↔
        (s.state = SquatState.UP ∧ s.visibilityQualified))) := by
  refine ⟨fun cfg s => ?_, fun cfg s => ?_, fun cfg s hk hh => ?_⟩
  · simp [pushupUpdate, hlen]
  · simp [plankUpdate, hlen]
  · obtain ⟨st, cnt, kA, hA, fw, lw, vq, kE, hE⟩ := s
    simp only at hk hh
    subst hk hh
    cases st <;>
      simp_all [squatUpdate, computeMetrics, hlen, squatEma_self,
        warningFromMetrics, depthReached]

/-- Witness for the amended C4 theorem at the empty frame and the initial
evaluator states. -/
theorem c4_short_frame_behavior_witness :
    ([] : List Landmark).length < 33 ∧
    pushupUpdate pushupCfgD pushupReset [] 1 1 "right" = pushupReset ∧
    plankUpdate plankCfgD (plankReset 0) [] 1 1 0 = plankReset 0 ∧
    (squatUpdate squatCfgD squatReset [] 1 1 "right").formWarning = "Keep legs in frame" := by
  have h := c4_short_frame_behavior [] 1 1 "right" 0 (by simp)
  exact ⟨by simp, h.1 pushupCfgD pushupReset, h.2.1 plankCfgD (plankReset 0),
    (h.2.2 squatCfgD squatReset rfl rfl).2.2.2.2.2.2.1⟩

/-! ### C6: visibility tests and the missing-confidence rule -/

/-- Counterexample to C6 as stated: not every visibility test used for
gating treats an absent visibility value as visible.  The knee gate of the
stateless processPushup (src/unnamed/part_000 lines 27-28) and the hip/knee
gate of the exported processSquat (exerciseLogic.ts lines 855-856) both
reject a landmark whose visibility is absent. -/
theorem c6_counterexample :
    ¬ statelessKneeVisible ⟨0, 0, 0, none⟩ ∧ ¬ squatGateVisible ⟨0, 0, 0, none⟩ := by
  constructor
  · rintro ⟨v, hv, -⟩
    simp at hv
  · intro hv
    simp only [squatGateVisible] at hv
    norm_num at hv

/-- C6, amended: the stateful evaluators' helper `isVisible` treats an
absent visibility as visible and a present one as visible exactly when it
is at least the threshold (so visibility 0.4 under threshold 0.5 is
excluded); but the stateless gates — processPushup's knee gate in
src/unnamed/part_000 and the exported processSquat's hip/knee gate — treat
an absent visibility as NOT visible (and compare strictly), so the
"absent means visible" rule does not hold for every gating test. -/
theorem c6_visibility_semantics :
    (∀ (p : Point) (t : ℝ), p.vis = none → isVisible p t) ∧
    (∀ (p : Point) (v t : ℝ), p.vis = some v → (isVisible p t ↔ t ≤ v)) ∧
    (∀ lm : Landmark, lm.visibility = none → ¬ statelessKneeVisible lm) ∧
    (∀ (lm : Landmark) (v : ℝ), lm.visibility = some v →
      (statelessKneeVisible lm ↔ 0.5 < v)) ∧
    (∀ lm : Landmark, lm.visibility = none → ¬ squatGateVisible lm) := by
  refine ⟨?_, ?_, ?_, ?_, ?_⟩
  · intro p t hp
    simp [isVisible, hp]
  · intro p v t hp
    simp [isVisible, hp]
  · rintro lm hlm ⟨v, hv, -⟩
    rw [hlm] at hv
    exact Option.noConfusion hv
  · intro lm v hlm
    constructor
    · rintro ⟨u, hu, hgt⟩
      rw [hlm] at hu
      injection hu with h
      rw [h]
      exact hgt
    · intro hgt
      exact ⟨v, hlm, hgt⟩
  · intro lm hlm hv
    simp only [squatGateVisible, hlm] at hv
    norm_num at hv

/-- Witness for C6 at concrete landmarks: an absent-visibility point passes
`isVisible`, a 0.4-visibility point fails it under threshold 0.5, and an
absent-visibility landmark fails the stateless knee gate. -/
theorem c6_visibility_semantics_witness :
    (⟨0, 0, 0, none⟩ : Point).vis = none ∧ isVisible ⟨0, 0, 0, none⟩ 0.5 ∧
    (⟨0, 0, 0, some 0.4⟩ : Point).vis = some 0.4 ∧ ¬ isVisible ⟨0, 0, 0, some 0.4⟩ 0.5 ∧
    (⟨0, 0, 0, none⟩ : Landmark).visibility = none ∧
    ¬ statelessKneeVisible ⟨0, 0, 0, none⟩ := by
  refine ⟨rfl, c6_visibility_semantics.1 _ 0.5 rfl, rfl, ?_, rfl,
    c6_visibility_semantics.2.2.1 _ rfl⟩
  intro hv
  have h := (c6_visibility_semantics.2.1 ⟨0, 0, 0, some 0.4⟩ 0.4 0.5 rfl).mp hv
  norm_num at h

/-! ### C8: the overall plank score is bounded and exact at perfect form -/

lemma hipScoreOf_bounds (x : Option ℝ) :
    0 ≤ hipScoreOf plankCfgD x ∧ hipScoreOf plankCfgD x ≤ 1 := by
  cases x with
  | none => norm_num [hipScoreOf]
  | some v =>
      simp only [hipScoreOf, plankCfgD]
      norm_num
      split_ifs with h1 h2 h3 h4
      · exact ⟨le_max_left 0 _, max_le (by norm_num)
          (by rw [div_le_one (by norm_num : (0:ℝ) < 60)]; linarith)⟩
      · constructor <;> nlinarith
      · exact ⟨le_max_left 0 _, max_le (by norm_num) (by nlinarith)⟩
      · constructor <;> nlinarith
      · norm_num

lemma headScoreOf_bounds (x : Option ℝ) :
    0 ≤ headScoreOf plankCfgD x ∧ headScoreOf plankCfgD x ≤ 1 := by
  cases x with
  | none => norm_num [headScoreOf]
  | some v =>
      simp only [headScoreOf, plankCfgD]
      norm_num
      split_ifs with h1 h2
      · exact ⟨le_max_left 0 _, max_le (by norm_num)
          (by rw [div_le_one (by norm_num : (0:ℝ) < 65)]; linarith)⟩
      · constructor <;> nlinarith
      · norm_num

lemma stackScoreOf_bounds (x y : Option ℝ) :
    0 ≤ stackScoreOf plankCfgD x y ∧ stackScoreOf plankCfgD x y ≤ 1 := by
  cases x with
  | none => norm_num [stackScoreOf]
  | some a =>
      cases y with
      | none => norm_num [stackScoreOf]
      | some b =>
          simp only [stackScoreOf, plankCfgD]
          split_ifs with h1
          · exact ⟨le_max_left 0 _, max_le (by norm_num) (by nlinarith)⟩
          · norm_num

lemma underScoreOf_bounds (x : Option ℝ) :
    0 ≤ underScoreOf plankCfgD x ∧ underScoreOf plankCfgD x ≤ 1 := by
  cases x with
  | none => norm_num [underScoreOf]
  | some v =>
      simp only [underScoreOf, plankCfgD]
      split_ifs with h1
      · refine ⟨le_max_left 0 _, max_le (by norm_num) ?_⟩
        have hd : 0 ≤ (v - 0.25) / 0.3 := div_nonneg (by linarith) (by norm_num)
        linarith
      · norm_num

lemma feetScoreOf_bounds (x : Option ℝ) :
    0 ≤ feetScoreOf plankCfgD x ∧ feetScoreOf plankCfgD x ≤ 1 := by
  cases x with
  | none => norm_num [feetScoreOf]
  | some v =>
      simp only [feetScoreOf, plankCfgD]
      norm_num
      split_ifs with h1 h2
      · exact ⟨le_max_left 0 _, max_le (by norm_num)
          (by rw [div_le_one (by norm_num : (0:ℝ) < 7 / 10)]; linarith)⟩
      · refine ⟨le_max_left 0 _, max_le (by norm_num) ?_⟩
        have hd : 0 ≤ (v - 7 / 5) / (3 / 5) := div_nonneg (by linarith) (by norm_num)
        linarith
      · norm_num

/-- C8: With the default weights (hip 0.35, head 0.15, stack 0.15, under
0.20, feet 0.15, summing to 1.0), the overall plank score — the weighted
sum of the five sub-scores times 100 — lies in [0, 100] for all (finite)
smoothed inputs, and equals exactly 100 whenever all five sub-scores are 1. -/
theorem c8_overall_score_bounds (h hd s1 s2 u f : Option ℝ) :
    (0 ≤ overallOf plankCfgD ⟨h, hd, s1, s2, u, f⟩ ∧
      overallOf plankCfgD ⟨h, hd, s1, s2, u, f⟩ ≤ 100) ∧
    (hipScoreOf plankCfgD h = 1 → headScoreOf plankCfgD hd = 1 →
      stackScoreOf plankCfgD s1 s2 = 1 → underScoreOf plankCfgD u = 1 →
      feetScoreOf plankCfgD f = 1 →
      overallOf plankCfgD ⟨h, hd, s1, s2, u, f⟩ = 100) := by
  obtain ⟨hip0, hip1⟩ := hipScoreOf_bounds h
  obtain ⟨hd0, hd1⟩ := headScoreOf_bounds hd
  obtain ⟨st0, st1⟩ := stackScoreOf_bounds s1 s2
  obtain ⟨un0, un1⟩ := underScoreOf_bounds u
  obtain ⟨ft0, ft1⟩ := feetScoreOf_bounds f
  have expand : overallOf plankCfgD ⟨h, hd, s1, s2, u, f⟩ =
      (0.35 * hipScoreOf plankCfgD h + 0.15 * headScoreOf plankCfgD hd +
       0.15 * stackScoreOf plankCfgD s1 s2 + 0.2 * underScoreOf plankCfgD u +
       0.15 * feetScoreOf plankCfgD f) * 100 := by
    simp only [overallOf, wOr]
    norm_num [plankCfgD]
  constructor
  · rw [expand]
    constructor <;> nlinarith
  · intro e1 e2 e3 e4 e5
    rw [expand, e1, e2, e3, e4, e5]
    norm_num

/-- Witness for C8: a concrete perfect-form configuration of the smoothed
signals where every sub-score evaluates to 1 and the overall score is 100. -/
theorem c8_overall_score_bounds_witness :
    hipScoreOf plankCfgD (some 170) = 1 ∧ headScoreOf plankCfgD (some 170) = 1 ∧
    stackScoreOf plankCfgD none none = 1 ∧ underScoreOf plankCfgD (some 0.1) = 1 ∧
    feetScoreOf plankCfgD (some 1) = 1 ∧
    overallOf plankCfgD ⟨some 170, some 170, none, none, some 0.1, some 1⟩ = 100 := by
  have e1 : hipScoreOf plankCfgD (some 170) = 1 := by
    simp only [hipScoreOf, plankCfgD]
    norm_num
  have e2 : headScoreOf plankCfgD (some 170) = 1 := by
    simp only [headScoreOf, plankCfgD]
    norm_num
  have e3 : stackScoreOf plankCfgD none none = 1 := rfl
  have e4 : underScoreOf plankCfgD (some 0.1) = 1 := by
    simp only [underScoreOf, plankCfgD]
    norm_num
  have e5 : feetScoreOf plankCfgD (some 1) = 1 := by
    simp only [feetScoreOf, plankCfgD]
    norm_num
  exact ⟨e1, e2, e3, e4, e5,
    (c8_overall_score_bounds (some 170) (some 170) none none (some 0.1) (some 1)).2
      e1 e2 e3 e4 e5⟩

/-! ### C9: ranges of the EMA-smoothed accumulators -/

lemma calculateAngle2D_range (a b c : Point) :
    0 ≤ calculateAngle2D a b c ∧ calculateAngle2D a b c ≤ 180 := by
  constructor
  · simp only [calculateAngle2D]
    exact arccosDeg_nonneg _
  · simp only [calculateAngle2D]
    exact arccosDeg_le_180 _

lemma recenterDeg_range (x : ℝ) :
    180 ≤ 180 - Real.arccos x * 180 / Real.pi + 180 ∧
    180 - Real.arccos x * 180 / Real.pi + 180 ≤ 360 := by
  have h1 := arccosDeg_nonneg x
  have h2 := arccosDeg_le_180 x
  constructor <;> linarith

lemma plankAngle3_range (a b c : Point) :
    180 ≤ plankAngle3 a b c ∧ plankAngle3 a b c ≤ 360 := by
  simp only [plankAngle3]
  exact recenterDeg_range _

/-- The squat EMA keeps any interval invariant when the smoothing factor is
at most 1. -/
lemma squatEma_range (cfg : SquatCfg) (hα : cfg.smoothAlpha ≤ 1) {p c : Option ℝ}
    {lo hi : ℝ} (hp : ∀ v, p = some v → lo ≤ v ∧ v ≤ hi)
    (hc : ∀ v, c = some v → lo ≤ v ∧ v ≤ hi) :
    ∀ v, squatEma cfg p c = some v → lo ≤ v ∧ v ≤ hi := by
  intro v hv
  unfold squatEma at hv
  split_ifs at hv with h
  · exact hc v hv
  · push_neg at h
    cases p with
    | none => exact hc v hv
    | some pv =>
        cases c with
        | none => exact Option.noConfusion hv
        | some cv =>
            simp only [Option.some.injEq] at hv
            obtain ⟨hp1, hp2⟩ := hp pv rfl
            obtain ⟨hc1, hc2⟩ := hc cv rfl
            subst hv
            constructor <;> nlinarith

/-- The plank EMA keeps any interval invariant when the smoothing factor is
in [0, 1]. -/
lemma plankEma_range (α : ℝ) (hα0 : 0 ≤ α) (hα1 : α ≤ 1) {p c : Option ℝ}
    {lo hi : ℝ} (hp : ∀ v, p = some v → lo ≤ v ∧ v ≤ hi)
    (hc : ∀ v, c = some v → lo ≤ v ∧ v ≤ hi) :
    ∀ v, plankEma α p c = some v → lo ≤ v ∧ v ≤ hi := by
  intro v hv
  cases p with
  | none => exact hc v hv
  | some pv =>
      cases c with
      | none => exact Option.noConfusion hv
      | some cv =>
          simp only [plankEma, Option.some.injEq] at hv
          obtain ⟨hp1, hp2⟩ := hp pv rfl
          obtain ⟨hc1, hc2⟩ := hc cv rfl
          subst hv
          constructor <;> nlinarith

/-- All branches of the squat update store the freshly smoothed values in
both the EMA fields and the exposed angle fields. -/
lemma squatUpdate_smooth_fields (cfg : SquatCfg) (s : SquatCtr) (lms : List Landmark)
    (w h : ℝ) (side : String) :
    (squatUpdate cfg s lms w h side).kneeEma =
      squatEma cfg s.kneeEma (computeMetrics cfg s lms w h side).kneeAngle ∧
    (squatUpdate cfg s lms w h side).hipEma =
      squatEma cfg s.hipEma (computeMetrics cfg s lms w h side).hipAngle ∧
    (squatUpdate cfg s lms w h side).kneeAngle = (squatUpdate cfg s lms w h side).kneeEma ∧
    (squatUpdate cfg s lms w h side).hipAngle = (squatUpdate cfg s lms w h side).hipEma := by
  obtain ⟨st, cnt, kA, hA, fw, lw, vq, kE, hE⟩ := s
  cases st <;> simp only [squatUpdate] <;> split_ifs <;> simp

lemma computeMetrics_kneeAngle_range (cfg : SquatCfg) (s : SquatCtr)
    (lms : List Landmark) (w h : ℝ) (side : String)
    (hinv : ∀ v, s.kneeAngle = some v → 0 ≤ v ∧ v ≤ 180) :
    ∀ v, (computeMetrics cfg s lms w h side).kneeAngle = some v → 0 ≤ v ∧ v ≤ 180 := by
  intro v hv
  by_cases hl : lms.length < 33
  · simp only [computeMetrics, if_pos hl] at hv
    exact hinv v hv
  · simp only [computeMetrics, if_neg hl] at hv
    simp only [Option.some.injEq] at hv
    subst hv
    exact calculateAngle2D_range ..

lemma computeMetrics_hipAngle_range (cfg : SquatCfg) (s : SquatCtr)
    (lms : List Landmark) (w h : ℝ) (side : String)
    (hinv : ∀ v, s.hipAngle = some v → 0 ≤ v ∧ v ≤ 180) :
    ∀ v, (computeMetrics cfg s lms w h side).hipAngle = some v → 0 ≤ v ∧ v ≤ 180 := by
  intro v hv
  by_cases hl : lms.length < 33
  · simp only [computeMetrics, if_pos hl] at hv
    exact hinv v hv
  · simp only [computeMetrics, if_neg hl] at hv
    simp only [Option.some.injEq] at hv
    subst hv
    exact calculateAngle2D_range ..

/-- Main-path projection of the plank update onto its two smoothed angle
accumulators. -/
lemma plankUpdate_smooth_fields (cfg : PlankCfg) (s : PlankSt) (lms : List Landmark)
    (w h now : ℝ) (hlen : ¬ lms.length < 33) (hcrit : plankCritVis cfg lms w h) :
    (plankUpdate cfg s lms w h now).hipAngSmooth = (plankSmoothed cfg s lms w h).hip ∧
    (plankUpdate cfg s lms w h now).headAngSmooth = (plankSmoothed cfg s lms w h).head ∧
    (plankUpdate cfg s lms w h now).stackShSmooth = (plankSmoothed cfg s lms w h).sSh ∧
    (plankUpdate cfg s lms w h now).stackHipSmooth = (plankSmoothed cfg s lms w h).sHip ∧
    (plankUpdate cfg s lms w h now).underSmooth = (plankSmoothed cfg s lms w h).under ∧
    (plankUpdate cfg s lms w h now).feetWSmooth = (plankSmoothed cfg s lms w h).feet := by
  simp only [plankUpdate, if_neg hlen]
  rw [if_neg (not_not_intro hcrit)]
  cases hs : s.state <;> simp only [hs] <;> split_ifs <;> simp

/-- Off-path projection: a plank update that fails the critical-visibility
gate leaves the smoothed accumulators untouched. -/
lemma plankUpdate_smooth_fields_nocrit (cfg : PlankCfg) (s : PlankSt) (lms : List Landmark)
    (w h now : ℝ) (hcrit : ¬ plankCritVis cfg lms w h) :
    (plankUpdate cfg s lms w h now).hipAngSmooth = s.hipAngSmooth ∧
    (plankUpdate cfg s lms w h now).headAngSmooth = s.headAngSmooth := by
  by_cases hlen : lms.length < 33
  · simp [plankUpdate, hlen]
  · simp only [plankUpdate, if_neg hlen]
    rw [if_pos hcrit]
    split_ifs <;> simp

/-- The squat smoothing invariant: exposed angles mirror the accumulators,
and the accumulators (once seeded) stay in [0, 180]. -/
def squatEmaInv (s : SquatCtr) : Prop :=
  s.kneeAngle = s.kneeEma ∧ s.hipAngle = s.hipEma ∧
  (∀ v, s.kneeEma = some v → 0 ≤ v ∧ v ≤ 180) ∧
  (∀ v, s.hipEma = some v → 0 ≤ v ∧ v ≤ 180)

/-- The plank smoothing invariant: the hip and head smoothed angles (once
seeded) stay in [180, 360], the actual range of the re-centered angle3. -/
def plankSmoothInv (s : PlankSt) : Prop :=
  (∀ v, s.hipAngSmooth = some v → 180 ≤ v ∧ v ≤ 360) ∧
  (∀ v, s.headAngSmooth = some v → 180 ≤ v ∧ v ≤ 360)

/-- A frame whose 33 landmarks all coincide at the origin, fully visible. -/
def frameC : List Landmark := mkFrame (fun _ => dLM)

lemma pt_frameC (i : ℕ) (hi : i < 33) : pt frameC i 640 480 = ⟨0, 0, 0, some 1⟩ := by
  rw [pt, frameC, lmAt_mkFrame _ _ hi]
  simp [dLM, toPoint]

/-- Counterexample to C9 as stated: after a single update on a coincident
(but fully visible) frame, the plank hip smoothed angle is 270 degrees —
outside [0, 180].  The plank angle3 re-centers by `180 - ang + 180`, so its
values live in [180, 360], not in the claimed natural range. -/
theorem c9_counterexample :
    (plankUpdate plankCfgD (plankReset 0) frameC 640 480 0).hipAngSmooth = some 270 ∧
    ¬ ((270 : ℝ) ≤ 180) := by
  have hlen : ¬ frameC.length < 33 := by
    rw [frameC, mkFrame_length]
    omega
  have hcrit : plankCritVis plankCfgD frameC 640 480 := by
    refine Or.inl ⟨?_, ?_⟩ <;>
      · rw [pt_frameC _ (by decide)]
        simp only [isVisible, plankCfgD]
        norm_num
  have hproj := plankUpdate_smooth_fields plankCfgD (plankReset 0) frameC 640 480 0 hlen hcrit
  have hraw : (plankRaw plankCfgD frameC 640 480).hipAngle = 270 := by
    simp only [plankRaw]
    rw [pt_frameC LEFT_SHOULDER (by decide), pt_frameC RIGHT_SHOULDER (by decide),
        pt_frameC LEFT_HIP (by decide), pt_frameC RIGHT_HIP (by decide),
        pt_frameC LEFT_ANKLE (by decide), pt_frameC RIGHT_ANKLE (by decide)]
    have havg : avgP ⟨0, 0, 0, some 1⟩ ⟨0, 0, 0, some 1⟩ = ⟨0, 0, 0, some 1⟩ := by
      simp [avgP]
    rw [havg]
    exact plankAngle3_eq_270 _ _ _ rfl rfl rfl
  refine ⟨?_, by norm_num⟩
  rw [hproj.1]
  simp only [plankSmoothed, plankReset, plankEma, hraw]

/-- C9, amended: the squat knee and hip EMA accumulators, once seeded, stay
in the angle's natural range [0, 180] after every update (with the exposed
angle fields mirroring them); the plank hip and head smoothed angles,
however, stay in [180, 360] — the range of the re-centered `angle3` — not
in [0, 180] as claimed. -/
theorem c9_smoothed_ranges (lms : List Landmark) (w h now : ℝ) (side : String) :
    (∀ s : SquatCtr, squatEmaInv s → squatEmaInv (squatUpdate squatCfgD s lms w h side)) ∧
    (∀ s : PlankSt, plankSmoothInv s → plankSmoothInv (plankUpdate plankCfgD s lms w h now)) := by
  constructor
  · rintro s ⟨hk, hh, hkr, hhr⟩
    obtain ⟨e1, e2, e3, e4⟩ := squatUpdate_smooth_fields squatCfgD s lms w h side
    have hka : ∀ v, s.kneeAngle = some v → 0 ≤ v ∧ v ≤ 180 := hk ▸ hkr
    have hha : ∀ v, s.hipAngle = some v → 0 ≤ v ∧ v ≤ 180 := hh ▸ hhr
    have hk' : ∀ v, (squatUpdate squatCfgD s lms w h side).kneeEma = some v →
        0 ≤ v ∧ v ≤ 180 := by
      rw [e1]
      exact squatEma_range squatCfgD (by norm_num [squatCfgD]) hkr
        (computeMetrics_kneeAngle_range squatCfgD s lms w h side hka)
    have hh' : ∀ v, (squatUpdate squatCfgD s lms w h side).hipEma = some v →
        0 ≤ v ∧ v ≤ 180 := by
      rw [e2]
      exact squatEma_range squatCfgD (by norm_num [squatCfgD]) hhr
        (computeMetrics_hipAngle_range squatCfgD s lms w h side hha)
    exact ⟨e3, e4, hk', hh'⟩
  · rintro s ⟨hhip, hhead⟩
    by_cases hlen : lms.length < 33
    · rw [show plankUpdate plankCfgD s lms w h now = s by simp [plankUpdate, hlen]]
      exact ⟨hhip, hhead⟩
    · by_cases hcrit : plankCritVis plankCfgD lms w h
      · obtain ⟨e1, e2, -, -, -, -⟩ := plankUpdate_smooth_fields plankCfgD s lms w h now hlen hcrit
        constructor
        · rw [e1]
          exact plankEma_range plankCfgD.emaAlpha (by norm_num [plankCfgD])
            (by norm_num [plankCfgD]) hhip
            (by
              rintro v hv
              simp only [Option.some.injEq] at hv
              subst hv
              have := plankAngle3_range (avgP (pt lms LEFT_SHOULDER w h)
                (pt lms RIGHT_SHOULDER w h)) (avgP (pt lms LEFT_HIP w h)
                (pt lms RIGHT_HIP w h)) (avgP (pt lms LEFT_ANKLE w h)
                (pt lms RIGHT_ANKLE w h))
              exact this)
        · rw [e2]
          exact plankEma_range plankCfgD.emaAlpha (by norm_num [plankCfgD])
            (by norm_num [plankCfgD]) hhead
            (by
              rintro v hv
              simp only [Option.some.injEq] at hv
              subst hv
              have := plankAngle3_range (avgP (pt lms LEFT_EAR w h)
                (pt lms RIGHT_EAR w h)) (avgP (pt lms LEFT_SHOULDER w h)
                (pt lms RIGHT_SHOULDER w h)) (avgP (pt lms LEFT_HIP w h)
                (pt lms RIGHT_HIP w h))
              exact this)
      · obtain ⟨e1, e2⟩ := plankUpdate_smooth_fields_nocrit plankCfgD s lms w h now hcrit
        exact ⟨e1 ▸ hhip, e2 ▸ hhead⟩

/-- Witness for the amended C9 at the freshly reset evaluators and a
concrete frame: both invariants hold initially and are preserved. -/
theorem c9_smoothed_ranges_witness :
    squatEmaInv squatReset ∧ plankSmoothInv (plankReset 0) ∧
    squatEmaInv (squatUpdate squatCfgD squatReset frameC 640 480 "right") ∧
    plankSmoothInv (plankUpdate plankCfgD (plankReset 0) frameC 640 480 0) := by
  have h1 : squatEmaInv squatReset := by
    refine ⟨rfl, rfl, ?_, ?_⟩ <;> intro v hv <;> exact Option.noConfusion hv
  have h2 : plankSmoothInv (plankReset 0) := by
    refine ⟨?_, ?_⟩ <;> intro v hv <;> exact Option.noConfusion hv
  exact ⟨h1, h2, (c9_smoothed_ranges frameC 640 480 0 "right").1 squatReset h1,
    (c9_smoothed_ranges frameC 640 480 0 "right").2 (plankReset 0) h2⟩

/-! ### C3: which knee angle drives the squat transitions -/

/-- C3, amended: in the squat counter the depth predicate is evaluated on
the EMA-smoothed knee angle, but the standing predicate that drives the
UNARMED→UP and DOWN→UP transitions is evaluated on the RAW per-frame knee
angle: `standing` is computed inside computeMetrics before smoothing, and
the spread that builds `smoothedMetrics` overrides only the two angle
fields, carrying the raw-based flag through. -/
theorem c3_squat_threshold_sources (s : SquatCtr) (lms : List Landmark) (w h : ℝ)
    (side : String) (hlen : ¬ lms.length < 33) :
    ((computeMetrics squatCfgD s lms w h side).standing ↔
      oGE (computeMetrics squatCfgD s lms w h side).kneeAngle 165) ∧
    (s.state = SquatState.UP →
      ((squatUpdate squatCfgD s lms w h side).state = SquatState.DOWN ↔
        (oLE (squatEma squatCfgD s.kneeEma
            (computeMetrics squatCfgD s lms w h side).kneeAngle) 95 ∧
         (computeMetrics squatCfgD s lms w h side).hipBelowKnee))) ∧
    (s.state = SquatState.UNARMED →
      ((squatUpdate squatCfgD s lms w h side).state = SquatState.UP ↔
        ((computeMetrics squatCfgD s lms w h side).standing ∧
         (computeMetrics squatCfgD s lms w h side).legsVisible))) ∧
    (s.state = SquatState.DOWN →
      ((squatUpdate squatCfgD s lms w h side).state = SquatState.UP ↔
        ((computeMetrics squatCfgD s lms w h side).standing ∧
         (s.visibilityQualified ∧ (computeMetrics squatCfgD s lms w h side).legsVisible)))) := by
  refine ⟨?_, ?_, ?_, ?_⟩
  · simp only [computeMetrics, if_neg hlen, oGE, squatCfgD]
    simp
  · intro hst
    obtain ⟨st, cnt, kA, hA, fw, lw, vq, kE0, hE0⟩ := s
    simp only at hst
    subst hst
    simp only [squatUpdate, depthReached, squatCfgD]
    split_ifs with hd
    · exact iff_of_true rfl hd
    · exact iff_of_false (by simp) hd
  · intro hst
    obtain ⟨st, cnt, kA, hA, fw, lw, vq, kE0, hE0⟩ := s
    simp only at hst
    subst hst
    simp only [squatUpdate]
    split_ifs with hd
    · exact iff_of_true rfl hd
    · refine iff_of_false (by simp) hd
  · intro hst
    obtain ⟨st, cnt, kA, hA, fw, lw, vq, kE0, hE0⟩ := s
    simp only at hst
    subst hst
    simp only [squatUpdate]
    split_ifs with hd
    · exact iff_of_true rfl (by tauto)
    · refine iff_of_false (by simp) (by tauto)

/-- The squat test frame (used with 1x1 dimensions): the right
hip-knee-ankle line is straight and horizontal (raw knee angle 180); every
landmark is fully visible. -/
def sfFn : ℕ → Landmark := fun i =>
  if i = RIGHT_KNEE then ⟨1, 0, 0, some 1⟩
  else if i = RIGHT_ANKLE then ⟨2, 0, 0, some 1⟩
  else dLM

def SF : List Landmark := mkFrame sfFn

lemma SF_len : ¬ SF.length < 33 := by
  rw [SF, mkFrame_length]
  omega

lemma pt_SF_rkn : pt SF RIGHT_KNEE 1 1 = ⟨1, 0, 0, some 1⟩ := by
  rw [pt, SF, lmAt_mkFrame _ _ (by decide)]
  simp [sfFn, toPoint, RIGHT_KNEE]

lemma pt_SF_rank : pt SF RIGHT_ANKLE 1 1 = ⟨2, 0, 0, some 1⟩ := by
  rw [pt, SF, lmAt_mkFrame _ _ (by decide)]
  simp [sfFn, toPoint, RIGHT_ANKLE, RIGHT_KNEE]

lemma pt_SF_other (i : ℕ) (hi : i < 33) (h1 : i ≠ RIGHT_KNEE) (h2 : i ≠ RIGHT_ANKLE) :
    pt SF i 1 1 = ⟨0, 0, 0, some 1⟩ := by
  rw [pt, SF, lmAt_mkFrame _ _ hi]
  simp [sfFn, toPoint, h1, h2, dLM]

lemma prefersRight_right : prefersRight "right" = true := by decide

lemma squatLegOK_SF_right : squatLegOK squatCfgD SF 1 1 true := by
  simp only [squatLegOK, if_pos]
  rw [pt_SF_other RIGHT_SHOULDER (by decide) (by decide) (by decide),
      pt_SF_other RIGHT_HIP (by decide) (by decide) (by decide),
      pt_SF_rkn, pt_SF_rank]
  refine ⟨?_, ?_, ?_, ?_⟩ <;> simp [isVisible, squatCfgD] <;> norm_num

lemma squatUseRight_SF : squatUseRight squatCfgD SF 1 1 "right" = true := by
  simp only [squatUseRight, prefersRight_right]
  rw [if_pos squatLegOK_SF_right]

/-- The raw metrics of the squat test frame: knee angle 180 (standing on
the raw reading), legs visible, hips not below knees. -/
lemma computeMetrics_SF (s : SquatCtr) :
    (computeMetrics squatCfgD s SF 1 1 "right").kneeAngle = some 180 ∧
    (computeMetrics squatCfgD s SF 1 1 "right").standing ∧
    (computeMetrics squatCfgD s SF 1 1 "right").legsVisible := by
  have hk : calculateAngle2D (pt SF RIGHT_HIP 1 1) (pt SF RIGHT_KNEE 1 1)
      (pt SF RIGHT_ANKLE 1 1) = 180 := by
    rw [pt_SF_other RIGHT_HIP (by decide) (by decide) (by decide), pt_SF_rkn, pt_SF_rank]
    apply calculateAngle2D_eq_180 <;> norm_num
  simp only [computeMetrics, if_neg SF_len, squatUseRight_SF, if_pos, Bool.true_eq,
    if_true]
  refine ⟨by rw [hk], ?_, ?_⟩
  · show squatCfgD.upThresh ≤ _
    rw [hk]
    norm_num [squatCfgD]
  · rw [pt_SF_other RIGHT_SHOULDER (by decide) (by decide) (by decide),
        pt_SF_other RIGHT_HIP (by decide) (by decide) (by decide),
        pt_SF_rkn, pt_SF_rank]
    refine ⟨?_, ?_, ?_, ?_⟩ <;> simp [isVisible, squatCfgD] <;> norm_num

/-- The squat state used in the C3 counterexample: UNARMED with the EMA
accumulators parked at 0 degrees. -/
def sqC3 : SquatCtr :=
  { squatReset with
      kneeAngle := some 0, kneeEma := some 0, hipAngle := some 0, hipEma := some 0 }

/-- Counterexample to C3 as stated: on the test frame the raw knee angle is
180 (standing) while the EMA-smoothed knee angle is only 63 degrees — far
below upThresh 165 — yet the UNARMED→UP transition fires.  The standing
predicate is therefore evaluated on the raw, not the smoothed, knee angle. -/
theorem c3_counterexample :
    (squatUpdate squatCfgD sqC3 SF 1 1 "right").state = SquatState.UP ∧
    (squatUpdate squatCfgD sqC3 SF 1 1 "right").kneeEma = some 63 ∧
    ¬ ((165 : ℝ) ≤ 63) := by
  obtain ⟨hknee, hstand, hlegs⟩ := computeMetrics_SF sqC3
  have hsc : sqC3.state = SquatState.UNARMED := rfl
  refine ⟨?_, ?_, by norm_num⟩
  · simp only [squatUpdate, hsc]
    rw [if_pos ⟨hstand, hlegs⟩]
  · simp only [squatUpdate, hsc]
    rw [if_pos ⟨hstand, hlegs⟩]
    dsimp only
    rw [hknee]
    have hke : sqC3.kneeEma = some 0 := rfl
    rw [hke]
    simp only [squatEma,
      if_neg (show ¬ squatCfgD.smoothAlpha ≤ 0 by norm_num [squatCfgD])]
    simp only [Option.some.injEq]
    norm_num [squatCfgD]

/-- Witness for the amended C3 at the initial squat state and the concrete
test frame. -/
theorem c3_squat_threshold_sources_witness :
    ¬ SF.length < 33 ∧ squatReset.state = SquatState.UNARMED ∧
    ((squatUpdate squatCfgD squatReset SF 1 1 "right").state = SquatState.UP ↔
      ((computeMetrics squatCfgD squatReset SF 1 1 "right").standing ∧
       (computeMetrics squatCfgD squatReset SF 1 1 "right").legsVisible)) :=
  ⟨SF_len, rfl,
    (c3_squat_threshold_sources squatReset SF 1 1 "right" SF_len).2.2.1 rfl⟩

/-! ### C5: the plank readiness/hold state machine -/

/-- C5: The plank evaluator never jumps from NOT_READY straight to HOLDING
in one update.  From NOT_READY it enters READY exactly on stability onset
(critical landmarks visible and this frame stable), stamping the
state-entry time.  From READY it enters HOLDING exactly when the frame is
stable and stability has persisted for at least readySeconds since READY
was entered (the entry timestamp is only ever set on the NOT_READY→READY
and READY→NOT_READY transitions, so the elapsed time measures continuous
readiness); entering HOLDING stamps the hold-start marker.  From READY or
HOLDING any single unstable (or insufficiently visible) frame returns the
machine to NOT_READY with the hold-start marker cleared while the
best-hold record is preserved; a stable frame in HOLDING keeps both. -/
theorem c5_plank_fsm_step (s : PlankSt) (lms : List Landmark) (w h now : ℝ)
    (hlen : 33 ≤ lms.length)
    (hready : s.state = PlankState.READY → s.holdStartTime = none)
    (hbest : 0 ≤ s.bestHold) :
    (s.state = PlankState.NOT_READY →
      (plankUpdate plankCfgD s lms w h now).state ≠ PlankState.HOLDING ∧
      ((plankUpdate plankCfgD s lms w h now).state = PlankState.READY ↔
        (plankCritVis plankCfgD lms w h ∧ plankStable plankCfgD s lms w h)) ∧
      ((plankUpdate plankCfgD s lms w h now).state = PlankState.READY →
        (plankUpdate plankCfgD s lms w h now).stateStartTime = now)) ∧
    (s.state = PlankState.READY →
      ((plankUpdate plankCfgD s lms w h now).state = PlankState.HOLDING ↔
        (plankCritVis plankCfgD lms w h ∧ plankStable plankCfgD s lms w h ∧
         plankCfgD.readySeconds ≤ (now - s.stateStartTime) / 1000)) ∧
      ((plankUpdate plankCfgD s lms w h now).state = PlankState.HOLDING →
        (plankUpdate plankCfgD s lms w h now).holdStartTime = some now) ∧
      (¬ (plankCritVis plankCfgD lms w h ∧ plankStable plankCfgD s lms w h) →
        (plankUpdate plankCfgD s lms w h now).state = PlankState.NOT_READY ∧
        (plankUpdate plankCfgD s lms w h now).holdStartTime = none ∧
        (plankUpdate plankCfgD s lms w h now).stateStartTime = now ∧
        (plankUpdate plankCfgD s lms w h now).bestHold = s.bestHold)) ∧
    (s.state = PlankState.HOLDING →
      (¬ (plankCritVis plankCfgD lms w h ∧ plankStable plankCfgD s lms w h) →
        (plankUpdate plankCfgD s lms w h now).state = PlankState.NOT_READY ∧
        (plankUpdate plankCfgD s lms w h now).holdStartTime = none ∧
        (plankUpdate plankCfgD s lms w h now).bestHold = s.bestHold) ∧
      ((plankCritVis plankCfgD lms w h ∧ plankStable plankCfgD s lms w h) →
        (plankUpdate plankCfgD s lms w h now).state = PlankState.HOLDING ∧
        (plankUpdate plankCfgD s lms w h now).holdStartTime = s.holdStartTime)) := by
  have hlen' : ¬ lms.length < 33 := by omega
  refine ⟨?_, ?_, ?_⟩
  · intro hst
    by_cases hcv : plankCritVis plankCfgD lms w h
    · simp only [plankUpdate, if_neg hlen']
      rw [if_neg (not_not_intro hcv)]
      simp only [hst]
      by_cases hstab : plankStable plankCfgD s lms w h
      · rw [if_pos hstab]
        refine ⟨by simp, iff_of_true rfl ⟨hcv, hstab⟩, fun _ => rfl⟩
      · rw [if_neg hstab]
        refine ⟨by simp, iff_of_false (by simp) (fun hc => hstab hc.2), by simp⟩
    · simp only [plankUpdate, if_neg hlen']
      rw [if_pos hcv]
      rw [if_neg (by simp [hst])]
      refine ⟨by simp [hst], iff_of_false (by simp [hst]) (fun hc => hcv hc.1),
        by simp [hst]⟩
  · intro hst
    have hhold : s.holdStartTime = none := hready hst
    by_cases hcv : plankCritVis plankCfgD lms w h
    · simp only [plankUpdate, if_neg hlen']
      rw [if_neg (not_not_intro hcv)]
      simp only [hst]
      by_cases hstab : plankStable plankCfgD s lms w h
      · rw [if_neg (not_not_intro hstab)]
        by_cases htime : plankCfgD.readySeconds ≤ (now - s.stateStartTime) / 1000
        · rw [if_pos htime]
          refine ⟨iff_of_true rfl ⟨hcv, hstab, htime⟩, fun _ => rfl,
            fun hc => absurd ⟨hcv, hstab⟩ hc⟩
        · rw [if_neg htime]
          refine ⟨iff_of_false (by simp) (fun hc => htime hc.2.2), by simp,
            fun hc => absurd ⟨hcv, hstab⟩ hc⟩
      · rw [if_pos hstab]
        refine ⟨iff_of_false (by simp) (fun hc => hstab hc.2.1), by simp, fun _ => ?_⟩
        refine ⟨rfl, ?_, rfl, ?_⟩
        · simp [hhold]
        · show max s.bestHold _ = s.bestHold
          simp only [hhold]
          exact max_eq_left hbest
    · simp only [plankUpdate, if_neg hlen']
      rw [if_pos hcv]
      rw [if_pos (by simp [hst])]
      refine ⟨iff_of_false (by simp) (fun hc => hcv hc.1), by simp,
        fun _ => ⟨rfl, rfl, rfl, rfl⟩⟩
  · intro hst
    by_cases hcv : plankCritVis plankCfgD lms w h
    · simp only [plankUpdate, if_neg hlen']
      rw [if_neg (not_not_intro hcv)]
      simp only [hst]
      by_cases hstab : plankStable plankCfgD s lms w h
      · rw [if_neg (not_not_intro hstab)]
        exact ⟨fun hc => absurd ⟨hcv, hstab⟩ hc, fun _ => ⟨rfl, rfl⟩⟩
      · rw [if_pos hstab]
        refine ⟨fun _ => ⟨rfl, rfl, ?_⟩, fun hc => absurd hc.2 hstab⟩
        show max s.bestHold _ = s.bestHold
        exact max_eq_left hbest
    · simp only [plankUpdate, if_neg hlen']
      rw [if_pos hcv]
      rw [if_pos (by simp [hst])]
      exact ⟨fun _ => ⟨rfl, rfl, rfl⟩, fun hc => absurd hc.1 hcv⟩

/-- Witness for C5 at the freshly reset plank evaluator and the coincident
frame. -/
theorem c5_plank_fsm_step_witness :
    33 ≤ frameC.length ∧ (plankReset 0).state ≠ PlankState.READY ∧
    0 ≤ (plankReset 0).bestHold ∧
    ((plankReset 0).state = PlankState.NOT_READY →
      (plankUpdate plankCfgD (plankReset 0) frameC 640 480 5).state ≠
        PlankState.HOLDING) := by
  have hlen : 33 ≤ frameC.length := by
    rw [frameC, mkFrame_length]
  have h := c5_plank_fsm_step (plankReset 0) frameC 640 480 5 hlen
    (fun hr => by exact absurd hr (by simp [plankReset])) (le_refl 0)
  exact ⟨hlen, by simp [plankReset], le_refl 0, fun hn => (h.1 hn).1⟩

/-! ### C10: module-scope statefulness of the exported wrappers -/

/-- A fully visible landmark whose pixel-space position at 640x480 is (x, y). -/
def pxl (x y : ℝ) : Landmark := ⟨x / 640, y / 480, 0, some 1⟩

lemma toPoint_pxl (x y : ℝ) : toPoint (pxl x y) 640 480 = ⟨x, y, 0, some 1⟩ := by
  simp only [toPoint, pxl]
  congr 1 <;> field_simp

/-- Push-up "top" frame: right arm straight (elbow 180), right leg straight
(knee 180), everything visible. -/
def puFn : ℕ → Landmark := fun i =>
  if i = RIGHT_ELBOW then pxl 1 0
  else if i = RIGHT_WRIST then pxl 2 0
  else if i = RIGHT_HIP then pxl 0 1
  else if i = RIGHT_KNEE then pxl 1 1
  else if i = RIGHT_ANKLE then pxl 2 1
  else pxl 0 0

def framePU : List Landmark := mkFrame puFn

/-- Push-up "bottom" frame: right shoulder and wrist coincide away from the
elbow (elbow angle 0), right leg straight, everything visible. -/
def pdFn : ℕ → Landmark := fun i =>
  if i = RIGHT_SHOULDER then pxl 1 0
  else if i = RIGHT_WRIST then pxl 1 0
  else if i = RIGHT_HIP then pxl 0 1
  else if i = RIGHT_KNEE then pxl 1 1
  else if i = RIGHT_ANKLE then pxl 2 1
  else pxl 0 0

def framePD : List Landmark := mkFrame pdFn

lemma pt_framePU (i : ℕ) (hi : i < 33) :
    pt framePU i 640 480 = toPoint (puFn i) 640 480 := by
  rw [pt, framePU, lmAt_mkFrame _ _ hi]

lemma pt_framePD (i : ℕ) (hi : i < 33) :
    pt framePD i 640 480 = toPoint (pdFn i) 640 480 := by
  rw [pt, framePD, lmAt_mkFrame _ _ hi]

lemma framePU_len : ¬ framePU.length < 33 := by
  rw [framePU, mkFrame_length]
  omega

lemma framePD_len : ¬ framePD.length < 33 := by
  rw [framePD, mkFrame_length]
  omega

lemma isVisible_pxl1 (x y t : ℝ) (ht : t ≤ 1) : isVisible ⟨x, y, 0, some 1⟩ t := ht

lemma pushupObs_PU :
    pushupElbow pushupCfgD framePU 640 480 "right" = 180 ∧
    pushupLegsExtended pushupCfgD framePU 640 480 "right" := by
  have hpr : prefersRight "right" = true := by decide
  have hsh : pt framePU RIGHT_SHOULDER 640 480 = ⟨0, 0, 0, some 1⟩ := by
    rw [pt_framePU _ (by decide)]
    simp only [puFn]
    norm_num [RIGHT_SHOULDER, RIGHT_ELBOW, RIGHT_WRIST, RIGHT_HIP, RIGHT_KNEE, RIGHT_ANKLE,
      toPoint_pxl]
  have hel : pt framePU RIGHT_ELBOW 640 480 = ⟨1, 0, 0, some 1⟩ := by
    rw [pt_framePU _ (by decide)]
    simp only [puFn]
    norm_num [RIGHT_ELBOW, toPoint_pxl]
  have hwr : pt framePU RIGHT_WRIST 640 480 = ⟨2, 0, 0, some 1⟩ := by
    rw [pt_framePU _ (by decide)]
    simp only [puFn]
    norm_num [RIGHT_ELBOW, RIGHT_WRIST, toPoint_pxl]
  have hhp : pt framePU RIGHT_HIP 640 480 = ⟨0, 1, 0, some 1⟩ := by
    rw [pt_framePU _ (by decide)]
    simp only [puFn]
    norm_num [RIGHT_ELBOW, RIGHT_WRIST, RIGHT_HIP, toPoint_pxl]
  have hkn : pt framePU RIGHT_KNEE 640 480 = ⟨1, 1, 0, some 1⟩ := by
    rw [pt_framePU _ (by decide)]
    simp only [puFn]
    norm_num [RIGHT_ELBOW, RIGHT_WRIST, RIGHT_HIP, RIGHT_KNEE, toPoint_pxl]
  have han : pt framePU RIGHT_ANKLE 640 480 = ⟨2, 1, 0, some 1⟩ := by
    rw [pt_framePU _ (by decide)]
    simp only [puFn]
    norm_num [RIGHT_ELBOW, RIGHT_WRIST, RIGHT_HIP, RIGHT_KNEE, RIGHT_ANKLE, toPoint_pxl]
  have hlsh : pt framePU LEFT_SHOULDER 640 480 = ⟨0, 0, 0, some 1⟩ := by
    rw [pt_framePU _ (by decide)]
    simp only [puFn]
    norm_num [LEFT_SHOULDER, RIGHT_ELBOW, RIGHT_WRIST, RIGHT_HIP, RIGHT_KNEE, RIGHT_ANKLE,
      toPoint_pxl]
  have hlhp : pt framePU LEFT_HIP 640 480 = ⟨0, 0, 0, some 1⟩ := by
    rw [pt_framePU _ (by decide)]
    simp only [puFn]
    norm_num [LEFT_HIP, RIGHT_ELBOW, RIGHT_WRIST, RIGHT_HIP, RIGHT_KNEE, RIGHT_ANKLE,
      toPoint_pxl]
  have hlkn : pt framePU LEFT_KNEE 640 480 = ⟨0, 0, 0, some 1⟩ := by
    rw [pt_framePU _ (by decide)]
    simp only [puFn]
    norm_num [LEFT_KNEE, RIGHT_ELBOW, RIGHT_WRIST, RIGHT_HIP, RIGHT_KNEE, RIGHT_ANKLE,
      toPoint_pxl]
  have hlan : pt framePU LEFT_ANKLE 640 480 = ⟨0, 0, 0, some 1⟩ := by
    rw [pt_framePU _ (by decide)]
    simp only [puFn]
    norm_num [LEFT_ANKLE, RIGHT_ELBOW, RIGHT_WRIST, RIGHT_HIP, RIGHT_KNEE, RIGHT_ANKLE,
      toPoint_pxl]
  have harm : pushupArmOK pushupCfgD framePU 640 480 true := by
    simp only [pushupArmOK, if_pos, if_true]
    rw [hsh, hel, hwr]
    exact ⟨isVisible_pxl1 _ _ _ (by norm_num [pushupCfgD]),
      isVisible_pxl1 _ _ _ (by norm_num [pushupCfgD]),
      isVisible_pxl1 _ _ _ (by norm_num [pushupCfgD])⟩
  have huse : pushupUseRight pushupCfgD framePU 640 480 "right" = true := by
    simp only [pushupUseRight, hpr]
    rw [if_pos harm]
  have hlegR : pushupLegOK pushupCfgD framePU 640 480 true := by
    simp only [pushupLegOK, if_pos, if_true]
    rw [hhp, hkn, han]
    exact ⟨isVisible_pxl1 _ _ _ (by norm_num [pushupCfgD]),
      isVisible_pxl1 _ _ _ (by norm_num [pushupCfgD]),
      isVisible_pxl1 _ _ _ (by norm_num [pushupCfgD])⟩
  have hlegL : pushupLegOK pushupCfgD framePU 640 480 false := by
    simp only [pushupLegOK, Bool.false_eq_true, if_false, if_neg]
    rw [hlhp, hlkn, hlan]
    exact ⟨isVisible_pxl1 _ _ _ (by norm_num [pushupCfgD]),
      isVisible_pxl1 _ _ _ (by norm_num [pushupCfgD]),
      isVisible_pxl1 _ _ _ (by norm_num [pushupCfgD])⟩
  have hside : pushupLegSide pushupCfgD framePU 640 480 "right" = some true := by
    simp only [pushupLegSide]
    rw [if_pos ⟨hlegR, hlegL⟩, huse]
  constructor
  · simp only [pushupElbow, huse, if_pos, if_true]
    rw [hsh, hel, hwr]
    apply calculateAngle2D_eq_180 <;> norm_num
  · have hknee : pushupKnee pushupCfgD framePU 640 480 "right" = some 180 := by
      simp only [pushupKnee, hside, if_true]
      rw [hhp, hkn, han]
      simp only [Option.some.injEq]
      apply calculateAngle2D_eq_180 <;> norm_num
    refine ⟨?_, 180, hknee, by norm_num [pushupCfgD]⟩
    simp [pushupLegsVisible, hside]

lemma pushupObs_PD :
    pushupElbow pushupCfgD framePD 640 480 "right" = 0 ∧
    pushupLegsExtended pushupCfgD framePD 640 480 "right" := by
  have hpr : prefersRight "right" = true := by decide
  have hsh : pt framePD RIGHT_SHOULDER 640 480 = ⟨1, 0, 0, some 1⟩ := by
    rw [pt_framePD _ (by decide)]
    simp only [pdFn]
    norm_num [RIGHT_SHOULDER, toPoint_pxl]
  have hel : pt framePD RIGHT_ELBOW 640 480 = ⟨0, 0, 0, some 1⟩ := by
    rw [pt_framePD _ (by decide)]
    simp only [pdFn]
    norm_num [RIGHT_SHOULDER, RIGHT_WRIST, RIGHT_HIP, RIGHT_KNEE, RIGHT_ANKLE,
      RIGHT_ELBOW, toPoint_pxl]
  have hwr : pt framePD RIGHT_WRIST 640 480 = ⟨1, 0, 0, some 1⟩ := by
    rw [pt_framePD _ (by decide)]
    simp only [pdFn]
    norm_num [RIGHT_SHOULDER, RIGHT_WRIST, toPoint_pxl]
  have hhp : pt framePD RIGHT_HIP 640 480 = ⟨0, 1, 0, some 1⟩ := by
    rw [pt_framePD _ (by decide)]
    simp only [pdFn]
    norm_num [RIGHT_SHOULDER, RIGHT_WRIST, RIGHT_HIP, toPoint_pxl]
  have hkn : pt framePD RIGHT_KNEE 640 480 = ⟨1, 1, 0, some 1⟩ := by
    rw [pt_framePD _ (by decide)]
    simp only [pdFn]
    norm_num [RIGHT_SHOULDER, RIGHT_WRIST, RIGHT_HIP, RIGHT_KNEE, toPoint_pxl]
  have han : pt framePD RIGHT_ANKLE 640 480 = ⟨2, 1, 0, some 1⟩ := by
    rw [pt_framePD _ (by decide)]
    simp only [pdFn]
    norm_num [RIGHT_SHOULDER, RIGHT_WRIST, RIGHT_HIP, RIGHT_KNEE, RIGHT_ANKLE, toPoint_pxl]
  have hlhp : pt framePD LEFT_HIP 640 480 = ⟨0, 0, 0, some 1⟩ := by
    rw [pt_framePD _ (by decide)]
    simp only [pdFn]
    norm_num [LEFT_HIP, RIGHT_SHOULDER, RIGHT_WRIST, RIGHT_HIP, RIGHT_KNEE, RIGHT_ANKLE,
      toPoint_pxl]
  have hlkn : pt framePD LEFT_KNEE 640 480 = ⟨0, 0, 0, some 1⟩ := by
    rw [pt_framePD _ (by decide)]
    simp only [pdFn]
    norm_num [LEFT_KNEE, RIGHT_SHOULDER, RIGHT_WRIST, RIGHT_HIP, RIGHT_KNEE, RIGHT_ANKLE,
      toPoint_pxl]
  have hlan : pt framePD LEFT_ANKLE 640 480 = ⟨0, 0, 0, some 1⟩ := by
    rw [pt_framePD _ (by decide)]
    simp only [pdFn]
    norm_num [LEFT_ANKLE, RIGHT_SHOULDER, RIGHT_WRIST, RIGHT_HIP, RIGHT_KNEE, RIGHT_ANKLE,
      toPoint_pxl]
  have harm : pushupArmOK pushupCfgD framePD 640 480 true := by
    simp only [pushupArmOK, if_pos, if_true]
    rw [hsh, hel, hwr]
    exact ⟨isVisible_pxl1 _ _ _ (by norm_num [pushupCfgD]),
      isVisible_pxl1 _ _ _ (by norm_num [pushupCfgD]),
      isVisible_pxl1 _ _ _ (by norm_num [pushupCfgD])⟩
  have huse : pushupUseRight pushupCfgD framePD 640 480 "right" = true := by
    simp only [pushupUseRight, hpr]
    rw [if_pos harm]
  have hlegR : pushupLegOK pushupCfgD framePD 640 480 true := by
    simp only [pushupLegOK, if_pos, if_true]
    rw [hhp, hkn, han]
    exact ⟨isVisible_pxl1 _ _ _ (by norm_num [pushupCfgD]),
      isVisible_pxl1 _ _ _ (by norm_num [pushupCfgD]),
      isVisible_pxl1 _ _ _ (by norm_num [pushupCfgD])⟩
  have hlegL : pushupLegOK pushupCfgD framePD 640 480 false := by
    simp only [pushupLegOK, Bool.false_eq_true, if_false, if_neg]
    rw [hlhp, hlkn, hlan]
    exact ⟨isVisible_pxl1 _ _ _ (by norm_num [pushupCfgD]),
      isVisible_pxl1 _ _ _ (by norm_num [pushupCfgD]),
      isVisible_pxl1 _ _ _ (by norm_num [pushupCfgD])⟩
  have hside : pushupLegSide pushupCfgD framePD 640 480 "right" = some true := by
    simp only [pushupLegSide]
    rw [if_pos ⟨hlegR, hlegL⟩, huse]
  constructor
  · simp only [pushupElbow, huse, if_pos, if_true]
    rw [hsh, hel, hwr]
    apply calculateAngle2D_eq_0 <;> norm_num
  · have hknee : pushupKnee pushupCfgD framePD 640 480 "right" = some 180 := by
      simp only [pushupKnee, hside, if_true]
      rw [hhp, hkn, han]
      simp only [Option.some.injEq]
      apply calculateAngle2D_eq_180 <;> norm_num
    refine ⟨?_, 180, hknee, by norm_num [pushupCfgD]⟩
    simp [pushupLegsVisible, hside]

/-- One PU-frame step from UNARMED: arms and legs straight arms the machine. -/
lemma pushupStep_PU_unarmed (s : PushupCtr) (hst : s.state = PushupState.UNARMED) :
    (pushupUpdate pushupCfgD s framePU 640 480 "right").state = PushupState.UP ∧
    (pushupUpdate pushupCfgD s framePU 640 480 "right").count = s.count := by
  obtain ⟨he, hext⟩ := pushupObs_PU
  simp only [pushupUpdate, if_neg framePU_len, hst]
  rw [if_pos ⟨by rw [he]; norm_num [pushupCfgD], hext⟩]
  exact ⟨rfl, rfl⟩

/-- One PD-frame step from UP: the low elbow angle drops the machine to
DOWN and latches the (satisfied) leg qualification. -/
lemma pushupStep_PD_up (s : PushupCtr) (hst : s.state = PushupState.UP) :
    (pushupUpdate pushupCfgD s framePD 640 480 "right").state = PushupState.DOWN ∧
    (pushupUpdate pushupCfgD s framePD 640 480 "right").count = s.count ∧
    (pushupUpdate pushupCfgD s framePD 640 480 "right").legsQualified := by
  obtain ⟨he, hext⟩ := pushupObs_PD
  simp only [pushupUpdate, if_neg framePD_len, hst]
  rw [if_pos (by rw [he]; norm_num [pushupCfgD])]
  exact ⟨rfl, rfl, hext⟩

/-- One PU-frame step from DOWN with the flag set: the rep is counted. -/
lemma pushupStep_PU_down (s : PushupCtr) (hst : s.state = PushupState.DOWN)
    (hq : s.legsQualified) :
    (pushupUpdate pushupCfgD s framePU 640 480 "right").state = PushupState.UP ∧
    (pushupUpdate pushupCfgD s framePU 640 480 "right").count = s.count + 1 := by
  obtain ⟨he, hext⟩ := pushupObs_PU
  simp only [pushupUpdate, if_neg framePU_len, hst]
  rw [if_pos ⟨by rw [he]; norm_num [pushupCfgD], Or.inl hq⟩]
  exact ⟨rfl, rfl⟩

/-- A straight-body high-plank frame: shoulders at pixel height 96, hips
and elbows at 120, ankles and wrists at 144, ears at 48; left side at
x = 64, right side at x = 192; everything visible. -/
def pfFn : ℕ → Landmark := fun i =>
  if i = LEFT_EAR then pxl 64 48
  else if i = RIGHT_EAR then pxl 192 48
  else if i = LEFT_SHOULDER then pxl 64 96
  else if i = RIGHT_SHOULDER then pxl 192 96
  else if i = LEFT_ELBOW then pxl 64 120
  else if i = RIGHT_ELBOW then pxl 192 120
  else if i = LEFT_WRIST then pxl 64 144
  else if i = RIGHT_WRIST then pxl 192 144
  else if i = LEFT_HIP then pxl 64 120
  else if i = RIGHT_HIP then pxl 192 120
  else if i = LEFT_KNEE then pxl 64 134
  else if i = RIGHT_KNEE then pxl 192 134
  else if i = LEFT_ANKLE then pxl 64 144
  else if i = RIGHT_ANKLE then pxl 192 144
  else pxl 0 0

def framePF : List Landmark := mkFrame pfFn

lemma framePF_len : ¬ framePF.length < 33 := by
  rw [framePF, mkFrame_length]
  omega

/-- Pixel positions of all fourteen landmarks the plank evaluator reads
from the straight-body frame. -/
lemma pt_PF :
    pt framePF LEFT_EAR 640 480 = ⟨64, 48, 0, some 1⟩ ∧
    pt framePF RIGHT_EAR 640 480 = ⟨192, 48, 0, some 1⟩ ∧
    pt framePF LEFT_SHOULDER 640 480 = ⟨64, 96, 0, some 1⟩ ∧
    pt framePF RIGHT_SHOULDER 640 480 = ⟨192, 96, 0, some 1⟩ ∧
    pt framePF LEFT_ELBOW 640 480 = ⟨64, 120, 0, some 1⟩ ∧
    pt framePF RIGHT_ELBOW 640 480 = ⟨192, 120, 0, some 1⟩ ∧
    pt framePF LEFT_WRIST 640 480 = ⟨64, 144, 0, some 1⟩ ∧
    pt framePF RIGHT_WRIST 640 480 = ⟨192, 144, 0, some 1⟩ ∧
    pt framePF LEFT_HIP 640 480 = ⟨64, 120, 0, some 1⟩ ∧
    pt framePF RIGHT_HIP 640 480 = ⟨192, 120, 0, some 1⟩ ∧
    pt framePF LEFT_KNEE 640 480 = ⟨64, 134, 0, some 1⟩ ∧
    pt framePF RIGHT_KNEE 640 480 = ⟨192, 134, 0, some 1⟩ ∧
    pt framePF LEFT_ANKLE 640 480 = ⟨64, 144, 0, some 1⟩ ∧
    pt framePF RIGHT_ANKLE 640 480 = ⟨192, 144, 0, some 1⟩ := by
  refine ⟨?_, ?_, ?_, ?_, ?_, ?_, ?_, ?_, ?_, ?_, ?_, ?_, ?_, ?_⟩ <;>
    · rw [pt, framePF, lmAt_mkFrame _ _ (by decide)]
      simp only [pfFn]
      norm_num [LEFT_EAR, RIGHT_EAR, LEFT_SHOULDER, RIGHT_SHOULDER, LEFT_ELBOW,
        RIGHT_ELBOW, LEFT_WRIST, RIGHT_WRIST, LEFT_HIP, RIGHT_HIP, LEFT_KNEE,
        RIGHT_KNEE, LEFT_ANKLE, RIGHT_ANKLE, toPoint_pxl]

/-- The raw plank signals of the straight-body frame: perfectly straight
body line and neck, level shoulders and hips, hands under shoulders,
hip-width feet, classified as a high plank. -/
lemma plankRaw_PF : plankRaw plankCfgD framePF 640 480 =
    { hipAngle := 180, headAngle := 180, shMis := some 0, hipMis := some 0,
      underDist := 0, feetW := 1, scale := 24, ptype := .HIGH } := by
  obtain ⟨e1, e2, e3, e4, e5, e6, e7, e8, e9, e10, e11, e12, e13, e14⟩ := pt_PF
  simp only [plankRaw]
  rw [e1, e2, e3, e4, e5, e6, e7, e8, e9, e10, e13, e14]
  have havg1 : avgP (⟨64, 96, 0, some 1⟩ : Point) ⟨192, 96, 0, some 1⟩ =
      ⟨128, 96, 0, some 1⟩ := by
    simp [avgP]
    norm_num
  have havg2 : avgP (⟨64, 120, 0, some 1⟩ : Point) ⟨192, 120, 0, some 1⟩ =
      ⟨128, 120, 0, some 1⟩ := by
    simp [avgP]
    norm_num
  have havg3 : avgP (⟨64, 144, 0, some 1⟩ : Point) ⟨192, 144, 0, some 1⟩ =
      ⟨128, 144, 0, some 1⟩ := by
    simp [avgP]
    norm_num
  have havg4 : avgP (⟨64, 48, 0, some 1⟩ : Point) ⟨192, 48, 0, some 1⟩ =
      ⟨128, 48, 0, some 1⟩ := by
    simp [avgP]
    norm_num
  rw [havg1, havg2, havg3, havg4]
  have hcls : classifyPlank plankCfgD ⟨64, 96, 0, some 1⟩ ⟨192, 96, 0, some 1⟩
      ⟨64, 120, 0, some 1⟩ ⟨192, 120, 0, some 1⟩ ⟨64, 144, 0, some 1⟩
      ⟨192, 144, 0, some 1⟩ = .HIGH := by
    rw [classifyPlank, if_neg (not_not_intro
      ⟨isVisible_pxl1 _ _ _ (by norm_num [plankCfgD]),
       isVisible_pxl1 _ _ _ (by norm_num [plankCfgD]),
       isVisible_pxl1 _ _ _ (by norm_num [plankCfgD]),
       isVisible_pxl1 _ _ _ (by norm_num [plankCfgD]),
       isVisible_pxl1 _ _ _ (by norm_num [plankCfgD]),
       isVisible_pxl1 _ _ _ (by norm_num [plankCfgD])⟩)]
    rw [if_pos (by norm_num)]
  rw [hcls]
  simp only [PlankRaw.mk.injEq]
  refine ⟨?_, ?_, ?_, ?_, ?_, ?_, ?_, trivial⟩
  · exact plankAngle3_eq_180 _ _ _ rfl rfl rfl rfl (by norm_num)
  · exact plankAngle3_eq_180 _ _ _ rfl rfl rfl rfl (by norm_num)
  · exact verticalMisalignDeg_level _ _ rfl rfl (by norm_num)
  · exact verticalMisalignDeg_level _ _ rfl rfl (by norm_num)
  · simp only [if_true, horizDist]
    norm_num
    rw [hypot_zero_left]
    norm_num
  · norm_num
    rw [hypot_zero_right, abs_of_nonpos (by norm_num : (-128:ℝ) ≤ 0)]
    norm_num
  · rw [show ((128:ℝ) - 128) = 0 by norm_num, show ((96:ℝ) - 120) = -24 by norm_num,
        hypot_zero_left]
    norm_num

/-- The fixed-point region of the smoothing state for the straight-body
frame: every accumulator is either unset or already at the frame's value. -/
def pfFixed (s : PlankSt) : Prop :=
  (s.hipAngSmooth = none ∨ s.hipAngSmooth = some 180) ∧
  (s.headAngSmooth = none ∨ s.headAngSmooth = some 180) ∧
  (s.stackShSmooth = none ∨ s.stackShSmooth = some 0) ∧
  (s.stackHipSmooth = none ∨ s.stackHipSmooth = some 0) ∧
  (s.underSmooth = none ∨ s.underSmooth = some 0) ∧
  (s.feetWSmooth = none ∨ s.feetWSmooth = some 1)

lemma plankEma_fix (α : ℝ) (p : Option ℝ) (v : ℝ) (h : p = none ∨ p = some v) :
    plankEma α p (some v) = some v := by
  rcases h with h | h <;> subst h
  · rfl
  · simp only [plankEma, Option.some.injEq]
    ring

lemma plankSmoothed_PF (s : PlankSt) (h : pfFixed s) :
    plankSmoothed plankCfgD s framePF 640 480 =
      ⟨some 180, some 180, some 0, some 0, some 0, some 1⟩ := by
  obtain ⟨h1, h2, h3, h4, h5, h6⟩ := h
  simp only [plankSmoothed, plankRaw_PF]
  rw [show (0:ℝ) / max 24 1 = 0 by norm_num]
  rw [plankEma_fix _ _ _ h1, plankEma_fix _ _ _ h2, plankEma_fix _ _ _ h3,
      plankEma_fix _ _ _ h4, plankEma_fix _ _ _ h5, plankEma_fix _ _ _ h6]

lemma plankStable_PF (s : PlankSt) (h : pfFixed s) :
    plankStable plankCfgD s framePF 640 480 := by
  obtain ⟨e1, e2, e3, e4, e5, e6, e7, e8, e9, e10, e11, e12, e13, e14⟩ := pt_PF
  constructor
  · rw [plankSmoothed_PF s h]
    have hhip : hipScoreOf plankCfgD (some 180) = 1 := by
      simp only [hipScoreOf, plankCfgD]
      norm_num
    have hhead : headScoreOf plankCfgD (some 180) = 1 := by
      simp only [headScoreOf, plankCfgD]
      norm_num
    have hstack : stackScoreOf plankCfgD (some 0) (some 0) = 1 := by
      simp only [stackScoreOf, plankCfgD]
      norm_num
    have hunder : underScoreOf plankCfgD (some 0) = 1 := by
      simp only [underScoreOf, plankCfgD]
      norm_num
    have hfeet : feetScoreOf plankCfgD (some 1) = 1 := by
      simp only [feetScoreOf, plankCfgD]
      norm_num
    simp only [overallOf, wOr, hhip, hhead, hstack, hunder, hfeet]
    norm_num [plankCfgD]
  · rw [plankCoreVis, e3, e4, e9, e10, e13, e14]
    exact ⟨isVisible_pxl1 _ _ _ (by norm_num [plankCfgD]),
      isVisible_pxl1 _ _ _ (by norm_num [plankCfgD]),
      isVisible_pxl1 _ _ _ (by norm_num [plankCfgD]),
      isVisible_pxl1 _ _ _ (by norm_num [plankCfgD]),
      isVisible_pxl1 _ _ _ (by norm_num [plankCfgD]),
      isVisible_pxl1 _ _ _ (by norm_num [plankCfgD])⟩

lemma plankCritVis_PF : plankCritVis plankCfgD framePF 640 480 := by
  obtain ⟨e1, e2, e3, e4, e5, e6, e7, e8, e9, e10, e11, e12, e13, e14⟩ := pt_PF
  left
  rw [e3, e11]
  exact ⟨isVisible_pxl1 _ _ _ (by norm_num [plankCfgD]),
    isVisible_pxl1 _ _ _ (by norm_num [plankCfgD])⟩

/-- Main-path NOT_READY step of the plank machine on a stable frame. -/
lemma plankFSM_notReady (cfg : PlankCfg) (s : PlankSt) (lms : List Landmark)
    (w h now : ℝ) (hlen : ¬ lms.length < 33) (hcv : plankCritVis cfg lms w h)
    (hstab : plankStable cfg s lms w h) (hst : s.state = PlankState.NOT_READY)
    (hhs : s.holdStartTime = none) :
    (plankUpdate cfg s lms w h now).state = PlankState.READY ∧
    (plankUpdate cfg s lms w h now).stateStartTime = now ∧
    (plankUpdate cfg s lms w h now).holdStartTime = none ∧
    (plankUpdate cfg s lms w h now).holdTime = 0 := by
  simp only [plankUpdate, if_neg hlen]
  rw [if_neg (not_not_intro hcv)]
  simp only [hst]
  rw [if_pos hstab]
  refine ⟨rfl, rfl, hhs, ?_⟩
  dsimp only
  simp only [hhs]

/-- Main-path READY step on a stable frame once readySeconds have elapsed. -/
lemma plankFSM_ready_hold (cfg : PlankCfg) (s : PlankSt) (lms : List Landmark)
    (w h now : ℝ) (hlen : ¬ lms.length < 33) (hcv : plankCritVis cfg lms w h)
    (hstab : plankStable cfg s lms w h) (hst : s.state = PlankState.READY)
    (ht : cfg.readySeconds ≤ (now - s.stateStartTime) / 1000) :
    (plankUpdate cfg s lms w h now).state = PlankState.HOLDING ∧
    (plankUpdate cfg s lms w h now).holdStartTime = some now ∧
    (plankUpdate cfg s lms w h now).holdTime = 0 := by
  simp only [plankUpdate, if_neg hlen]
  rw [if_neg (not_not_intro hcv)]
  simp only [hst]
  rw [if_neg (not_not_intro hstab), if_pos ht]
  refine ⟨rfl, rfl, ?_⟩
  dsimp only
  norm_num

/-- Main-path HOLDING step on a stable frame: the hold timer reads the
elapsed time since the hold-start marker. -/
lemma plankFSM_holding_stay (cfg : PlankCfg) (s : PlankSt) (lms : List Landmark)
    (w h now : ℝ) (hlen : ¬ lms.length < 33) (hcv : plankCritVis cfg lms w h)
    (hstab : plankStable cfg s lms w h) (hst : s.state = PlankState.HOLDING)
    (t : ℝ) (hhs : s.holdStartTime = some t) :
    (plankUpdate cfg s lms w h now).state = PlankState.HOLDING ∧
    (plankUpdate cfg s lms w h now).holdStartTime = some t ∧
    (plankUpdate cfg s lms w h now).holdTime = (now - t) / 1000 := by
  simp only [plankUpdate, if_neg hlen]
  rw [if_neg (not_not_intro hcv)]
  simp only [hst]
  rw [if_neg (not_not_intro hstab)]
  refine ⟨rfl, hhs, ?_⟩
  dsimp only
  simp only [hhs]

/-- Each step on the straight-body frame keeps the smoothing state in the
fixed-point region. -/
lemma pfFixed_next (s : PlankSt) (now : ℝ) (h : pfFixed s) :
    pfFixed (plankUpdate plankCfgD s framePF 640 480 now) := by
  obtain ⟨e1, e2, e3, e4, e5, e6⟩ :=
    plankUpdate_smooth_fields plankCfgD s framePF 640 480 now framePF_len plankCritVis_PF
  have hsm := plankSmoothed_PF s h
  rw [pfFixed, e1, e2, e3, e4, e5, e6, hsm]
  simp

/-- The exercise state every run starts from in the host application. -/
def exSt0 : ExerciseState :=
  { count := 0, feedback := "Get Ready", isCorrectForm := True, stage := .NEUTRAL,
    timer := some 0, visibilityIssue := none, landmarksNeedingImprovement := none }

/-- First, second and third calls of the push-up wrapper, each with
identical (landmarks, state) arguments for the first and third call. -/
def puRun1 : ModuleState × ExerciseState := processPushupW (moduleInit 0) framePU exSt0
def puRun2 : ModuleState × ExerciseState := processPushupW puRun1.1 framePD exSt0
def puRun3 : ModuleState × ExerciseState := processPushupW puRun2.1 framePU exSt0

/-- Three calls of the plank wrapper with identical (landmarks, state)
arguments at ambient wall-clock times 0, 1500 and 3000 ms. -/
def plRun1 : ModuleState × ExerciseState := processPlankW 0 (moduleInit 0) framePF exSt0
def plRun2 : ModuleState × ExerciseState := processPlankW 1500 plRun1.1 framePF exSt0
def plRun3 : ModuleState × ExerciseState := processPlankW 3000 plRun2.1 framePF exSt0

/-- C10: the exported processSquat is pure — it returns the module state
unchanged and its result does not depend on it — while processPushup and
processPlank read and mutate the shared module-scope singleton evaluators:
with identical (landmarks, state) arguments, the first and third push-up
calls return different rep counts (0 then 1), and the second and third
plank calls return different hold timers (0 s then 1.5 s, the wall clock
being ambient state, not an argument). -/
theorem c10_wrapper_statefulness :
    (∀ (ms ms' : ModuleState) (lms : List Landmark) (st : ExerciseState),
      (processSquatW ms lms st).1 = ms ∧
      (processSquatW ms lms st).2 = (processSquatW ms' lms st).2) ∧
    (puRun1.2.count = 0 ∧ puRun3.2.count = 1 ∧ puRun1.2 ≠ puRun3.2) ∧
    (plRun2.2.timer = some 0 ∧ plRun3.2.timer = some 1.5 ∧ plRun2.2 ≠ plRun3.2) := by
  refine ⟨fun ms ms' lms st => ⟨rfl, rfl⟩, ?_, ?_⟩
  · have hc1 := pushupStep_PU_unarmed (moduleInit 0).pushup rfl
    have hc2 := pushupStep_PD_up
      (pushupUpdate pushupCfgD (moduleInit 0).pushup framePU 640 480 "right") hc1.1
    have hc3 := pushupStep_PU_down
      (pushupUpdate pushupCfgD
        (pushupUpdate pushupCfgD (moduleInit 0).pushup framePU 640 480 "right")
        framePD 640 480 "right") hc2.1 hc2.2.2
    have e1 : puRun1.2.count = 0 := by
      show (pushupUpdate pushupCfgD (moduleInit 0).pushup framePU 640 480 "right").count = 0
      rw [hc1.2]
      rfl
    have e3 : puRun3.2.count = 1 := by
      show (pushupUpdate pushupCfgD
        (pushupUpdate pushupCfgD
          (pushupUpdate pushupCfgD (moduleInit 0).pushup framePU 640 480 "right")
          framePD 640 480 "right") framePU 640 480 "right").count = 1
      rw [hc3.2, hc2.2.1, hc1.2]
      rfl
    refine ⟨e1, e3, fun hEq => ?_⟩
    have hcnt := congrArg ExerciseState.count hEq
    rw [e1, e3] at hcnt
    exact absurd hcnt (by decide)
  · have hfix0 : pfFixed (plankReset 0) := by
      refine ⟨Or.inl rfl, Or.inl rfl, Or.inl rfl, Or.inl rfl, Or.inl rfl, Or.inl rfl⟩
    have h1 := plankFSM_notReady plankCfgD (plankReset 0) framePF 640 480 0
      framePF_len plankCritVis_PF (plankStable_PF _ hfix0) rfl rfl
    have hfix1 : pfFixed (plankUpdate plankCfgD (plankReset 0) framePF 640 480 0) :=
      pfFixed_next _ _ hfix0
    have h2 := plankFSM_ready_hold plankCfgD
      (plankUpdate plankCfgD (plankReset 0) framePF 640 480 0) framePF 640 480 1500
      framePF_len plankCritVis_PF (plankStable_PF _ hfix1) h1.1
      (by rw [h1.2.1]; norm_num [plankCfgD])
    have hfix2 : pfFixed (plankUpdate plankCfgD
        (plankUpdate plankCfgD (plankReset 0) framePF 640 480 0) framePF 640 480 1500) :=
      pfFixed_next _ _ hfix1
    have h3 := plankFSM_holding_stay plankCfgD
      (plankUpdate plankCfgD
        (plankUpdate plankCfgD (plankReset 0) framePF 640 480 0) framePF 640 480 1500)
      framePF 640 480 3000 framePF_len plankCritVis_PF (plankStable_PF _ hfix2)
      h2.1 1500 h2.2.1
    have e2 : plRun2.2.timer = some 0 := by
      show some ((plankUpdate plankCfgD
        (plankUpdate plankCfgD (plankReset 0) framePF 640 480 0)
        framePF 640 480 1500).holdTime) = some (0 : ℝ)
      rw [h2.2.2]
    have e3 : plRun3.2.timer = some 1.5 := by
      show some ((plankUpdate plankCfgD
        (plankUpdate plankCfgD
          (plankUpdate plankCfgD (plankReset 0) framePF 640 480 0)
          framePF 640 480 1500) framePF 640 480 3000).holdTime) = some (1.5 : ℝ)
      rw [h3.2.2]
      norm_num
    refine ⟨e2, e3, fun hEq => ?_⟩
    have htm := congrArg ExerciseState.timer hEq
    rw [e2, e3] at htm
    have : (0 : ℝ) = 1.5 := by injection htm
    norm_num at this

/-- Witness for C10's purity part at a concrete pair of module states. -/
theorem c10_wrapper_statefulness_witness :
    (processSquatW (moduleInit 0) [] exSt0).1 = moduleInit 0 ∧
    (processSquatW (moduleInit 0) [] exSt0).2 = (processSquatW (moduleInit 1) [] exSt0).2 :=
  ⟨(c10_wrapper_statefulness.1 (moduleInit 0) (moduleInit 1) [] exSt0).1,
   (c10_wrapper_statefulness.1 (moduleInit 0) (moduleInit 1) [] exSt0).2⟩

end PoseEval
